import Mathlib

/-!
# RFCOMM connection control of the Bluetooth audio gateway

A shallow embedding of `system/bta/ag/bta_ag_rfc.cc`.

* Machine integers (`uint16_t` handles, `uint32_t` event codes and service masks) are natural
  numbers; the code only compares them, shifts them right and tests their lowest bit, so no
  operation can overflow.  The one signed computation, `bta_ag_scb_to_idx(p_scb) - 1`, is done
  in `Int`.
* Calls that leave the file (`do_in_main_thread`, the `PORT_*` and `RFCOMM_*` requests,
  `bta_ag_sm_execute`) are appended, in program order, to a trace of `Effect`s.
* Every `log::` call is appended, as its level, to a separate log.
* A failed `CHECK_GE` / `CHECK_LT` ends the run in `Outcome.fatal`, carrying the state reached
  when the check failed.
* Constants, tables and helpers that are declared in headers outside this file are the fields
  of `Env`; nothing is assumed about their values.
-/

set_option linter.unusedVariables false

namespace BtaAgRfc

/-! ## Data model -/

/-- State machine events raised by this file (members of the event enumeration of
bta_ag_int.h; distinct enumerators are distinct values). -/
inductive tBTA_AG_EVT
  | BTA_AG_RFC_OPEN_EVT
  | BTA_AG_RFC_CLOSE_EVT
  | BTA_AG_RFC_SRV_CLOSE_EVT
  | BTA_AG_RFC_DATA_EVT
  deriving DecidableEq, Repr

/-- The `rfc` member of the event data: the port handle the event is about. -/
structure tBTA_AG_RFC where
  port_handle : Nat
  deriving DecidableEq, Repr

/-- Event data handed to the state machine; this file only ever writes `rfc.port_handle`. -/
structure tBTA_AG_DATA where
  rfc : tBTA_AG_RFC
  deriving DecidableEq, Repr

/-- The zero-initialised event data `tBTA_AG_DATA::kEmpty`. -/
def tBTA_AG_DATA.kEmpty : tBTA_AG_DATA := { rfc := { port_handle := 0 } }

/-- The twelve callback entry points of the file; a function pointer is the name of the
function it points to. -/
inductive tPORT_CALLBACK
  | bta_ag_port_cback_1
  | bta_ag_port_cback_2
  | bta_ag_port_cback_3
  | bta_ag_port_cback_4
  | bta_ag_port_cback_5
  | bta_ag_port_cback_6
  | bta_ag_mgmt_cback_1
  | bta_ag_mgmt_cback_2
  | bta_ag_mgmt_cback_3
  | bta_ag_mgmt_cback_4
  | bta_ag_mgmt_cback_5
  | bta_ag_mgmt_cback_6
  deriving DecidableEq, Repr

/-- Arguments of one `RFCOMM_CreateConnectionWithSecurity` request (the out-parameter
`p_handle` apart).  `p_mgmt_callback` is `none` when the table read that produced it was
outside the table. -/
structure tRFCOMM_CREATE where
  uuid : Nat
  scn : Nat
  is_server : Bool
  mtu : Nat
  bd_addr : Nat
  p_mgmt_callback : Option tPORT_CALLBACK
  sec_mask : Nat
  deriving DecidableEq, Repr

/-- Calls that leave the file. `do_in_main_thread handle event data` is the task
`bta_ag_sm_execute_by_handle(handle, event, data)` posted to the main thread. -/
inductive Effect
  | do_in_main_thread (handle : Nat) (event : tBTA_AG_EVT) (data : tBTA_AG_DATA)
  | bta_ag_sm_execute (idx : Nat) (event : tBTA_AG_EVT) (data : tBTA_AG_DATA)
  | PORT_SetEventMask (handle : Nat) (mask : Nat)
  | PORT_SetEventCallback (handle : Nat) (cb : Option tPORT_CALLBACK)
  | RFCOMM_CreateConnectionWithSecurity (req : tRFCOMM_CREATE)
  | RFCOMM_RemoveServer (handle : Nat)
  | RFCOMM_RemoveConnection (handle : Nat)
  deriving DecidableEq, Repr

/-- Level of a `log::` call. -/
inductive LogLevel
  | verbose
  | info
  | warn
  | error
  deriving DecidableEq, Repr

/-- Modelled from the spec: the service control block `tBTA_AG_SCB` is declared in
bta_ag_int.h, which is not part of the sources; the fields are those of the spec's Session
record that this file reads or writes (`slot_index`, `peer_address`, `connection_handle`,
`server_handles`, `connection_service`, `peer_channel`, `lifecycle_state`).  Handle value `0`
is the unset handle. -/
structure tBTA_AG_SCB where
  slot_index : Nat
  peer_addr : Nat
  conn_handle : Nat
  serv_handle : List Nat
  conn_service : Nat
  peer_scn : Nat
  state : Nat
  deriving DecidableEq, Repr

/-- Declarations this file uses from headers and files outside it.  `profile_scn i` is
`bta_ag_cb.profile[i].scn`; `kAny` is `RawAddress::kAny`.  The transport call
`RFCOMM_CreateConnectionWithSecurity` is a function of the trace so far, the request and the
value `*p_handle` held before the call, and answers with the returned status and the value of
`*p_handle` after the call. -/
structure Env where
  PORT_SUCCESS : Nat
  PORT_EV_RXCHAR : Nat
  BTA_HSP_SERVICE_ID : Nat
  BTA_AG_NUM_IDX : Nat
  BTA_AG_MTU : Nat
  BTA_SEC_AUTHENTICATE : Nat
  BTA_SEC_ENCRYPT : Nat
  kAny : Nat
  bta_ag_uuid : Nat → Nat
  profile_scn : Nat → Nat
  bta_ag_scb_open : tBTA_AG_SCB → Bool
  RFCOMM_CreateConnectionWithSecurity : List Effect → tRFCOMM_CREATE → Nat → Nat × Nat

/-- Event mask for the RFCOMM port callback (`#define BTA_AG_PORT_EV_MASK PORT_EV_RXCHAR`). -/
def BTA_AG_PORT_EV_MASK (E : Env) : Nat := E.PORT_EV_RXCHAR

/-- What a transport callback sees and produces: the session table as resolved by
`bta_ag_scb_by_idx` (defined outside this file, so a field), the calls made so far and the
log written so far. -/
structure World where
  bta_ag_scb_by_idx : Nat → Option tBTA_AG_SCB
  trace : List Effect
  log : List LogLevel

/-- Append one outgoing call to the trace. -/
def World.emit (w : World) (e : Effect) : World := { w with trace := w.trace ++ [e] }

/-- Append one log line. -/
def World.logs (w : World) (l : LogLevel) : World := { w with log := w.log ++ [l] }

/-- State of a lifecycle operation called with the pointer `p_scb`: the record pointed to,
the calls made so far and the log written so far. -/
structure Run where
  p_scb : tBTA_AG_SCB
  trace : List Effect
  log : List LogLevel
  deriving DecidableEq, Repr

/-- Append one outgoing call to the trace. -/
def Run.emit (r : Run) (e : Effect) : Run := { r with trace := r.trace ++ [e] }

/-- Append one log line. -/
def Run.logs (r : Run) (l : LogLevel) : Run := { r with log := r.log ++ [l] }

/-- Result of a lifecycle operation: it returned, or a `CHECK` aborted the process. -/
inductive Outcome
  | done (r : Run)
  | fatal (r : Run)
  deriving DecidableEq, Repr

/-- The state reached, whether the operation returned or aborted. -/
def Outcome.run : Outcome → Run
  | .done r => r
  | .fatal r => r

/-- Whether a `CHECK` aborted the operation. -/
def Outcome.isFatal : Outcome → Bool
  | .done _ => false
  | .fatal _ => true

/-! ## Callback tables -/

/-- The table `bta_ag_port_cback_tbl`. -/
def bta_ag_port_cback_tbl : List tPORT_CALLBACK :=
  [.bta_ag_port_cback_1, .bta_ag_port_cback_2, .bta_ag_port_cback_3,
   .bta_ag_port_cback_4, .bta_ag_port_cback_5, .bta_ag_port_cback_6]

/-- The table `bta_ag_mgmt_cback_tbl`. -/
def bta_ag_mgmt_cback_tbl : List tPORT_CALLBACK :=
  [.bta_ag_mgmt_cback_1, .bta_ag_mgmt_cback_2, .bta_ag_mgmt_cback_3,
   .bta_ag_mgmt_cback_4, .bta_ag_mgmt_cback_5, .bta_ag_mgmt_cback_6]

/-- The array read `tbl[index]` with a signed index; `none` outside the table, where the C
read is undefined. -/
def tbl_at (tbl : List tPORT_CALLBACK) (index : Int) : Option tPORT_CALLBACK :=
  if index < 0 then none else tbl.get? index.toNat

/-! ## Event translators -/

/-- RFCOMM port callback. -/
def bta_ag_port_cback (E : Env) (w : World) (code port_handle handle : Nat) : World :=
  match w.bta_ag_scb_by_idx handle with
  | some p_scb =>
    /- ignore port events for port handles other than connected handle -/
    if port_handle ≠ p_scb.conn_handle then
      w.logs .error
    else
      let w1 := if !E.bta_ag_scb_open p_scb then w.logs .error else w
      w1.emit (.do_in_main_thread handle .BTA_AG_RFC_DATA_EVT tBTA_AG_DATA.kEmpty)
  | none => w

/-- The loop over `p_scb->serv_handle` of the management callback: true as soon as an entry
equals `port_handle`. -/
def found_in_serv_handle (port_handle : Nat) : List Nat → Bool
  | [] => false
  | service_port_handle :: rest =>
    if port_handle = service_port_handle then true
    else found_in_serv_handle port_handle rest

/-- RFCOMM management callback. -/
def bta_ag_mgmt_cback (E : Env) (w : World) (code port_handle handle : Nat) : World :=
  let w := w.logs .verbose
  match w.bta_ag_scb_by_idx handle with
  | none => w.logs .warn
  | some p_scb =>
    /- ignore close event for port handles other than connected handle -/
    if code ≠ E.PORT_SUCCESS ∧ port_handle ≠ p_scb.conn_handle then
      w.logs .warn
    else
      let post (event : tBTA_AG_EVT) : World :=
        w.emit (.do_in_main_thread handle event { rfc := { port_handle := port_handle } })
      if code = E.PORT_SUCCESS then
        let found_handle : Bool :=
          if p_scb.conn_handle ≠ 0 then
            /- Outgoing connection -/
            (if port_handle = p_scb.conn_handle then true else false)
          else
            /- Incoming connection -/
            found_in_serv_handle port_handle p_scb.serv_handle
        if !found_handle then w.logs .error
        else post .BTA_AG_RFC_OPEN_EVT
      else if port_handle = p_scb.conn_handle then
        /- distinguish server close events -/
        post .BTA_AG_RFC_CLOSE_EVT
      else
        post .BTA_AG_RFC_SRV_CLOSE_EVT

/-- Callback `bta_ag_mgmt_cback_1`. -/
def bta_ag_mgmt_cback_1 (E : Env) (w : World) (code port_handle : Nat) : World :=
  bta_ag_mgmt_cback E w code port_handle 1
/-- Callback `bta_ag_mgmt_cback_2`. -/
def bta_ag_mgmt_cback_2 (E : Env) (w : World) (code port_handle : Nat) : World :=
  bta_ag_mgmt_cback E w code port_handle 2
/-- Callback `bta_ag_mgmt_cback_3`. -/
def bta_ag_mgmt_cback_3 (E : Env) (w : World) (code port_handle : Nat) : World :=
  bta_ag_mgmt_cback E w code port_handle 3
/-- Callback `bta_ag_mgmt_cback_4`. -/
def bta_ag_mgmt_cback_4 (E : Env) (w : World) (code port_handle : Nat) : World :=
  bta_ag_mgmt_cback E w code port_handle 4
/-- Callback `bta_ag_mgmt_cback_5`. -/
def bta_ag_mgmt_cback_5 (E : Env) (w : World) (code port_handle : Nat) : World :=
  bta_ag_mgmt_cback E w code port_handle 5
/-- Callback `bta_ag_mgmt_cback_6`. -/
def bta_ag_mgmt_cback_6 (E : Env) (w : World) (code port_handle : Nat) : World :=
  bta_ag_mgmt_cback E w code port_handle 6
/-- Callback `bta_ag_port_cback_1`. -/
def bta_ag_port_cback_1 (E : Env) (w : World) (code port_handle : Nat) : World :=
  bta_ag_port_cback E w code port_handle 1
/-- Callback `bta_ag_port_cback_2`. -/
def bta_ag_port_cback_2 (E : Env) (w : World) (code port_handle : Nat) : World :=
  bta_ag_port_cback E w code port_handle 2
/-- Callback `bta_ag_port_cback_3`. -/
def bta_ag_port_cback_3 (E : Env) (w : World) (code port_handle : Nat) : World :=
  bta_ag_port_cback E w code port_handle 3
/-- Callback `bta_ag_port_cback_4`. -/
def bta_ag_port_cback_4 (E : Env) (w : World) (code port_handle : Nat) : World :=
  bta_ag_port_cback E w code port_handle 4
/-- Callback `bta_ag_port_cback_5`. -/
def bta_ag_port_cback_5 (E : Env) (w : World) (code port_handle : Nat) : World :=
  bta_ag_port_cback E w code port_handle 5
/-- Callback `bta_ag_port_cback_6`. -/
def bta_ag_port_cback_6 (E : Env) (w : World) (code port_handle : Nat) : World :=
  bta_ag_port_cback E w code port_handle 6

/-- What the transport layer runs when it invokes a registered callback with
`(code, port_handle)`: the function the pointer names. -/
def tPORT_CALLBACK.invoke (E : Env) (w : World) (code port_handle : Nat) :
    tPORT_CALLBACK → World
  | .bta_ag_port_cback_1 => BtaAgRfc.bta_ag_port_cback_1 E w code port_handle
  | .bta_ag_port_cback_2 => BtaAgRfc.bta_ag_port_cback_2 E w code port_handle
  | .bta_ag_port_cback_3 => BtaAgRfc.bta_ag_port_cback_3 E w code port_handle
  | .bta_ag_port_cback_4 => BtaAgRfc.bta_ag_port_cback_4 E w code port_handle
  | .bta_ag_port_cback_5 => BtaAgRfc.bta_ag_port_cback_5 E w code port_handle
  | .bta_ag_port_cback_6 => BtaAgRfc.bta_ag_port_cback_6 E w code port_handle
  | .bta_ag_mgmt_cback_1 => BtaAgRfc.bta_ag_mgmt_cback_1 E w code port_handle
  | .bta_ag_mgmt_cback_2 => BtaAgRfc.bta_ag_mgmt_cback_2 E w code port_handle
  | .bta_ag_mgmt_cback_3 => BtaAgRfc.bta_ag_mgmt_cback_3 E w code port_handle
  | .bta_ag_mgmt_cback_4 => BtaAgRfc.bta_ag_mgmt_cback_4 E w code port_handle
  | .bta_ag_mgmt_cback_5 => BtaAgRfc.bta_ag_mgmt_cback_5 E w code port_handle
  | .bta_ag_mgmt_cback_6 => BtaAgRfc.bta_ag_mgmt_cback_6 E w code port_handle

/-! ## Lifecycle operations -/

/-- Modelled from the spec: `bta_ag_scb_to_idx` is defined outside this file; it recovers the
slot index of the session a pointer refers to, the `slot_index` of the spec's Session
record. -/
def bta_ag_scb_to_idx (p_scb : tBTA_AG_SCB) : Nat := p_scb.slot_index

/-- The assignment `p_scb->serv_handle[i] = h`. -/
def Run.set_serv_handle (r : Run) (i h : Nat) : Run :=
  { r with p_scb := { r.p_scb with serv_handle := r.p_scb.serv_handle.set i h } }

/-- The assignment `p_scb->conn_handle = h`. -/
def Run.set_conn_handle (r : Run) (h : Nat) : Run :=
  { r with p_scb := { r.p_scb with conn_handle := h } }

/-- Setup RFCOMM port for use by AG. -/
def bta_ag_setup_port (E : Env) (r : Run) (handle : Nat) : Outcome :=
  let port_callback_index : Int := (bta_ag_scb_to_idx r.p_scb : Int) - 1
  if ¬ (port_callback_index ≥ 0) then .fatal r
  else if ¬ (port_callback_index < (bta_ag_port_cback_tbl.length : Int)) then .fatal r
  else
    let r := r.emit (.PORT_SetEventMask handle (BTA_AG_PORT_EV_MASK E))
    .done (r.emit (.PORT_SetEventCallback handle
      (tbl_at bta_ag_port_cback_tbl port_callback_index)))

/-- The loop of `bta_ag_start_servers`, entered with `k = BTA_AG_NUM_IDX - i` iterations
left before the test `i < BTA_AG_NUM_IDX` fails. -/
def bta_ag_start_servers_loop (E : Env) : Nat → Nat → Nat → Run → Outcome
  | 0, _, _, r => .done r
  | k + 1, i, services, r =>
    if services = 0 then .done r
    else if services &&& 1 ≠ 0 then
      /- if service is set in mask -/
      let management_callback_index : Int := (bta_ag_scb_to_idx r.p_scb : Int) - 1
      if ¬ (management_callback_index ≥ 0) then .fatal r
      else if ¬ (management_callback_index < (bta_ag_mgmt_cback_tbl.length : Int)) then
        .fatal r
      else
        let req : tRFCOMM_CREATE :=
          { uuid := E.bta_ag_uuid i, scn := E.profile_scn i, is_server := true,
            mtu := E.BTA_AG_MTU, bd_addr := E.kAny,
            p_mgmt_callback := tbl_at bta_ag_mgmt_cback_tbl management_callback_index,
            sec_mask := E.BTA_SEC_AUTHENTICATE ||| E.BTA_SEC_ENCRYPT }
        let res := E.RFCOMM_CreateConnectionWithSecurity r.trace req
          (r.p_scb.serv_handle.getD i 0)
        let status := res.1
        let r1 := (r.emit (.RFCOMM_CreateConnectionWithSecurity req)).set_serv_handle i res.2
        let o : Outcome :=
          if status = E.PORT_SUCCESS then
            bta_ag_setup_port E r1 (r1.p_scb.serv_handle.getD i 0)
          else
            .done (r1.logs .error)
        match o with
        | .fatal r2 => .fatal r2
        | .done r2 => bta_ag_start_servers_loop E k (i + 1) (services >>> 1) (r2.logs .verbose)
    else bta_ag_start_servers_loop E k (i + 1) (services >>> 1) r

/-- Setup RFCOMM servers for use by AG. -/
def bta_ag_start_servers (E : Env) (r : Run) (services : Nat) : Outcome :=
  bta_ag_start_servers_loop E E.BTA_AG_NUM_IDX 0 (services >>> E.BTA_HSP_SERVICE_ID) r

/-- The loop of `bta_ag_close_servers`, entered with `k = BTA_AG_NUM_IDX - i` iterations
left. -/
def bta_ag_close_servers_loop : Nat → Nat → Nat → Run → Run
  | 0, _, _, r => r
  | k + 1, i, services, r =>
    if services = 0 then r
    else if services &&& 1 ≠ 0 then
      /- if service is set in mask -/
      let r1 := r.emit (.RFCOMM_RemoveServer (r.p_scb.serv_handle.getD i 0))
      bta_ag_close_servers_loop k (i + 1) (services >>> 1) (r1.set_serv_handle i 0)
    else bta_ag_close_servers_loop k (i + 1) (services >>> 1) r

/-- Close RFCOMM servers port for use by AG. -/
def bta_ag_close_servers (E : Env) (r : Run) (services : Nat) : Run :=
  bta_ag_close_servers_loop E.BTA_AG_NUM_IDX 0 (services >>> E.BTA_HSP_SERVICE_ID) r

/-- The loop of `bta_ag_is_server_closed`, entered with `k = BTA_AG_NUM_IDX - xx` iterations
left (`xx` is a `uint8_t`; the count of services is far below 256). -/
def bta_ag_is_server_closed_loop (p_scb : tBTA_AG_SCB) : Nat → Nat → Bool → Bool
  | 0, _, is_closed => is_closed
  | k + 1, xx, is_closed =>
    bta_ag_is_server_closed_loop p_scb k (xx + 1)
      (if p_scb.serv_handle.getD xx 0 ≠ 0 then false else is_closed)

/-- Returns true if all servers are closed. -/
def bta_ag_is_server_closed (E : Env) (p_scb : tBTA_AG_SCB) : Bool :=
  bta_ag_is_server_closed_loop p_scb E.BTA_AG_NUM_IDX 0 true

/-- Open an RFCOMM connection to the peer device.  On a failed create the state machine is
run synchronously with `BTA_AG_RFC_CLOSE_EVT`; that call is recorded, what the state machine
then does is outside this file. -/
def bta_ag_rfc_do_open (E : Env) (r : Run) (data : tBTA_AG_DATA) : Outcome :=
  let management_callback_index : Int := (bta_ag_scb_to_idx r.p_scb : Int) - 1
  let req : tRFCOMM_CREATE :=
    { uuid := E.bta_ag_uuid r.p_scb.conn_service, scn := r.p_scb.peer_scn, is_server := false,
      mtu := E.BTA_AG_MTU, bd_addr := r.p_scb.peer_addr,
      p_mgmt_callback := tbl_at bta_ag_mgmt_cback_tbl management_callback_index,
      sec_mask := E.BTA_SEC_AUTHENTICATE ||| E.BTA_SEC_ENCRYPT }
  let res := E.RFCOMM_CreateConnectionWithSecurity r.trace req r.p_scb.conn_handle
  let status := res.1
  let r1 := ((r.emit (.RFCOMM_CreateConnectionWithSecurity req)).set_conn_handle res.2).logs
    .verbose
  if status = E.PORT_SUCCESS then
    bta_ag_setup_port E r1 r1.p_scb.conn_handle
  else
    /- RFCOMM create connection failed; send ourselves RFCOMM close event -/
    .done ((r1.logs .error).emit
      (.bta_ag_sm_execute (bta_ag_scb_to_idx r1.p_scb) .BTA_AG_RFC_CLOSE_EVT data))

/-- Close RFCOMM connection. -/
def bta_ag_rfc_do_close (E : Env) (r : Run) (data : tBTA_AG_DATA) : Run :=
  let r := r.logs .info
  if r.p_scb.conn_handle ≠ 0 then
    r.emit (.RFCOMM_RemoveConnection r.p_scb.conn_handle)
  else
    /- Close API was called while AG is in Opening state. -/
    r.emit (.do_in_main_thread (bta_ag_scb_to_idx r.p_scb) .BTA_AG_RFC_CLOSE_EVT
      tBTA_AG_DATA.kEmpty)

/-! ## Reading a trace -/

/-- Whether a call is a request to the transport layer (`PORT_*` or `RFCOMM_*`). -/
def Effect.isTransport : Effect → Bool
  | .do_in_main_thread _ _ _ => false
  | .bta_ag_sm_execute _ _ _ => false
  | .PORT_SetEventMask _ _ => true
  | .PORT_SetEventCallback _ _ => true
  | .RFCOMM_CreateConnectionWithSecurity _ => true
  | .RFCOMM_RemoveServer _ => true
  | .RFCOMM_RemoveConnection _ => true

/-- The slot index an envelope posted to the main thread is addressed to. -/
def Effect.slot : Effect → Option Nat
  | .do_in_main_thread handle _ _ => some handle
  | _ => none

/-! ## Concrete environment and sessions used to evaluate the code -/

/-- An environment with the values of the Android headers: `PORT_SUCCESS = 0`,
`BTA_HSP_SERVICE_ID = 5`, two services; the session counts as open in state `2`; the
transport accepts every request and hands out handle `trace length + 1`. -/
def env0 : Env :=
  { PORT_SUCCESS := 0, PORT_EV_RXCHAR := 1, BTA_HSP_SERVICE_ID := 5, BTA_AG_NUM_IDX := 2,
    BTA_AG_MTU := 256, BTA_SEC_AUTHENTICATE := 2, BTA_SEC_ENCRYPT := 4, kAny := 0,
    bta_ag_uuid := fun i => 0x1112 + 12 * i, profile_scn := fun i => i + 1,
    bta_ag_scb_open := fun p => p.state == 2,
    RFCOMM_CreateConnectionWithSecurity := fun tr _ _ => (0, tr.length + 1) }

/-- A session record in slot `slot` with the given connection handle, server handles and
state. -/
def scb0 (slot conn : Nat) (serv : List Nat) (state : Nat) : tBTA_AG_SCB :=
  { slot_index := slot, peer_addr := 0xAABBCC, conn_handle := conn, serv_handle := serv,
    conn_service := 1, peer_scn := 3, state := state }

/-- A session table holding the one session `p` in slot `slot`, nothing posted or logged. -/
def world0 (slot : Nat) (p : tBTA_AG_SCB) : World :=
  { bta_ag_scb_by_idx := fun idx => if idx = slot then some p else none,
    trace := [], log := [] }

/-- A transport that refuses every create request with status `1` and hands back handle
`0`; everything else as in `env0`. -/
def env1 : Env :=
  { env0 with RFCOMM_CreateConnectionWithSecurity := fun _ _ _ => (1, 0) }

/-! ## Reading requests and masks -/

/-- The create request `bta_ag_rfc_do_open` builds for the session `p_scb`. -/
def bta_ag_rfc_do_open_req (E : Env) (p_scb : tBTA_AG_SCB) : tRFCOMM_CREATE :=
  { uuid := E.bta_ag_uuid p_scb.conn_service, scn := p_scb.peer_scn, is_server := false,
    mtu := E.BTA_AG_MTU, bd_addr := p_scb.peer_addr,
    p_mgmt_callback := tbl_at bta_ag_mgmt_cback_tbl ((bta_ag_scb_to_idx p_scb : Int) - 1),
    sec_mask := E.BTA_SEC_AUTHENTICATE ||| E.BTA_SEC_ENCRYPT }

/-- The create request `bta_ag_start_servers` builds for service `i` of the session
`p_scb`. -/
def bta_ag_start_servers_req (E : Env) (p_scb : tBTA_AG_SCB) (i : Nat) : tRFCOMM_CREATE :=
  { uuid := E.bta_ag_uuid i, scn := E.profile_scn i, is_server := true,
    mtu := E.BTA_AG_MTU, bd_addr := E.kAny,
    p_mgmt_callback := tbl_at bta_ag_mgmt_cback_tbl ((bta_ag_scb_to_idx p_scb : Int) - 1),
    sec_mask := E.BTA_SEC_AUTHENTICATE ||| E.BTA_SEC_ENCRYPT }

/-- Whether a call hands `BTA_AG_RFC_CLOSE_EVT` to the state machine, posted or run
directly. -/
def Effect.isClosed : Effect → Bool
  | .do_in_main_thread _ .BTA_AG_RFC_CLOSE_EVT _ => true
  | .bta_ag_sm_execute _ .BTA_AG_RFC_CLOSE_EVT _ => true
  | _ => false

/-- Whether a call configures a port (`PORT_SetEventMask` or `PORT_SetEventCallback`). -/
def Effect.isPortConfig : Effect → Bool
  | .PORT_SetEventMask _ _ => true
  | .PORT_SetEventCallback _ _ => true
  | _ => false

/-- The event kind of an envelope posted to the main thread. -/
def Effect.kind : Effect → Option tBTA_AG_EVT
  | .do_in_main_thread _ event _ => some event
  | _ => none

/-- The service mask `services` restricted to the supported bits, `BTA_HSP_SERVICE_ID` up to
`BTA_HSP_SERVICE_ID + BTA_AG_NUM_IDX - 1`. -/
def supported_services (E : Env) (services : Nat) : Nat :=
  services &&& ((2 ^ E.BTA_AG_NUM_IDX - 1) <<< E.BTA_HSP_SERVICE_ID)

/-- One pass through the body of the loop of `bta_ag_start_servers` for service `i`, for a
session whose slot index passes the two checks: the create request, the write of the handle
the transport hands back, then the port setup or the error log, then the verbose log. -/
def bta_ag_start_servers_body (E : Env) (i : Nat) (r : Run) : Run :=
  let req := bta_ag_start_servers_req E r.p_scb i
  let res := E.RFCOMM_CreateConnectionWithSecurity r.trace req (r.p_scb.serv_handle.getD i 0)
  let r1 := (r.emit (.RFCOMM_CreateConnectionWithSecurity req)).set_serv_handle i res.2
  let r2 :=
    if res.1 = E.PORT_SUCCESS then
      (r1.emit (.PORT_SetEventMask (r1.p_scb.serv_handle.getD i 0) (BTA_AG_PORT_EV_MASK E))).emit
        (.PORT_SetEventCallback (r1.p_scb.serv_handle.getD i 0)
          (tbl_at bta_ag_port_cback_tbl ((bta_ag_scb_to_idx r1.p_scb : Int) - 1)))
    else r1.logs .error
  r2.logs .verbose

/-! ## Helper lemmas -/

theorem found_in_serv_handle_iff (port_handle : Nat) (l : List Nat) :
    found_in_serv_handle port_handle l = true ↔ port_handle ∈ l := by
  induction l with
  | nil => simp [found_in_serv_handle]
  | cons a rest ih =>
    by_cases h : port_handle = a
    · simp [found_in_serv_handle, h]
    · simp [found_in_serv_handle, h, ih]

/-- The management callback never writes the session table. -/
theorem bta_ag_mgmt_cback_table (E : Env) (w : World) (code port_handle handle : Nat) :
    (bta_ag_mgmt_cback E w code port_handle handle).bta_ag_scb_by_idx = w.bta_ag_scb_by_idx := by
  unfold bta_ag_mgmt_cback
  simp only [World.logs, World.emit]
  split
  · rfl
  · split_ifs <;> rfl

/-- The port callback never writes the session table. -/
theorem bta_ag_port_cback_table (E : Env) (w : World) (code port_handle handle : Nat) :
    (bta_ag_port_cback E w code port_handle handle).bta_ag_scb_by_idx = w.bta_ag_scb_by_idx := by
  unfold bta_ag_port_cback
  simp only [World.logs, World.emit]
  split
  · split_ifs <;> rfl
  · rfl

/-- Every call the management callback adds to the trace is an envelope addressed to the
slot the callback was invoked for. -/
theorem bta_ag_mgmt_cback_slot (E : Env) (w : World) (code port_handle handle : Nat) :
    ∃ added, (bta_ag_mgmt_cback E w code port_handle handle).trace = w.trace ++ added ∧
      ∀ e ∈ added, e.slot = some handle := by
  unfold bta_ag_mgmt_cback
  simp only [World.logs, World.emit]
  split
  · exact ⟨[], by simp⟩
  · split_ifs
    all_goals first
      | exact ⟨[_], rfl, by simp [Effect.slot]⟩
      | exact ⟨[], by simp⟩

/-- Every call the port callback adds to the trace is an envelope addressed to the slot the
callback was invoked for. -/
theorem bta_ag_port_cback_slot (E : Env) (w : World) (code port_handle handle : Nat) :
    ∃ added, (bta_ag_port_cback E w code port_handle handle).trace = w.trace ++ added ∧
      ∀ e ∈ added, e.slot = some handle := by
  unfold bta_ag_port_cback
  simp only [World.logs, World.emit]
  split
  · split_ifs
    all_goals first
      | exact ⟨[_], rfl, by simp [Effect.slot]⟩
      | exact ⟨[], by simp⟩
  · exact ⟨[], by simp⟩

/-! ## Management translator -/

/-- C1 (as the code behaves): a failure event on a handle that is one of the session's server
handles and is not the connection handle is dropped; nothing is posted to the main thread, in
particular no `BTA_AG_RFC_SRV_CLOSE_EVT`. -/
theorem mgmt_server_handle_failure_posts_nothing (E : Env) (w : World)
    (code port_handle handle : Nat) (p_scb : tBTA_AG_SCB)
    (hs : w.bta_ag_scb_by_idx handle = some p_scb) (hc : code ≠ E.PORT_SUCCESS)
    (hm : port_handle ∈ p_scb.serv_handle) (hn : port_handle ≠ p_scb.conn_handle) :
    (bta_ag_mgmt_cback E w code port_handle handle).trace = w.trace := by
  simp [bta_ag_mgmt_cback, World.logs, World.emit, hs, hc, hn]

/-- Witness of C1 as amended: slot 3, server handles 7 and 9, connection handle 9, failure
event on 7. -/
theorem mgmt_server_handle_failure_posts_nothing_witness :
    (world0 3 (scb0 3 9 [7, 9] 2)).bta_ag_scb_by_idx 3 = some (scb0 3 9 [7, 9] 2) ∧
    (1 : Nat) ≠ env0.PORT_SUCCESS ∧ 7 ∈ (scb0 3 9 [7, 9] 2).serv_handle ∧
    7 ≠ (scb0 3 9 [7, 9] 2).conn_handle ∧
    (bta_ag_mgmt_cback env0 (world0 3 (scb0 3 9 [7, 9] 2)) 1 7 3).trace =
      (world0 3 (scb0 3 9 [7, 9] 2)).trace :=
  ⟨rfl, by decide, by decide, by decide,
    mgmt_server_handle_failure_posts_nothing env0 (world0 3 (scb0 3 9 [7, 9] 2)) 1 7 3
      (scb0 3 9 [7, 9] 2) rfl (by decide) (by decide) (by decide)⟩

/-- C1 counterexample: in slot 3 with server handles 7 and 9 and connection handle 9, a
failure event (code 1) on handle 7 posts no envelope at all, so not the
`BTA_AG_RFC_SRV_CLOSE_EVT` envelope the claim asks for. -/
theorem mgmt_server_close_counterexample :
    (world0 3 (scb0 3 9 [7, 9] 2)).bta_ag_scb_by_idx 3 = some (scb0 3 9 [7, 9] 2) ∧
    (1 : Nat) ≠ env0.PORT_SUCCESS ∧ 7 ∈ (scb0 3 9 [7, 9] 2).serv_handle ∧
    7 ≠ (scb0 3 9 [7, 9] 2).conn_handle ∧
    (bta_ag_mgmt_cback env0 (world0 3 (scb0 3 9 [7, 9] 2)) 1 7 3).trace = [] ∧
    (bta_ag_mgmt_cback env0 (world0 3 (scb0 3 9 [7, 9] 2)) 1 7 3).trace ≠
      [Effect.do_in_main_thread 3 .BTA_AG_RFC_SRV_CLOSE_EVT { rfc := { port_handle := 7 } }] := by
  decide

/-- C2 (as the code behaves): with the connection handle unset and server handles
`[h1, 0]`, `h1` set, a success event on `h1` posts exactly one `BTA_AG_RFC_OPEN_EVT` envelope
for the slot, carrying `h1`, and leaves the session table as it was: the callback does not
write `conn_handle`. -/
theorem mgmt_inbound_success_posts_open (E : Env) (w : World) (h1 handle : Nat)
    (p_scb : tBTA_AG_SCB) (hs : w.bta_ag_scb_by_idx handle = some p_scb)
    (hconn : p_scb.conn_handle = 0) (hserv : p_scb.serv_handle = [h1, 0]) (hset : h1 ≠ 0) :
    (bta_ag_mgmt_cback E w E.PORT_SUCCESS h1 handle).trace =
      w.trace ++ [Effect.do_in_main_thread handle .BTA_AG_RFC_OPEN_EVT
        { rfc := { port_handle := h1 } }] ∧
    (bta_ag_mgmt_cback E w E.PORT_SUCCESS h1 handle).bta_ag_scb_by_idx handle = some p_scb := by
  refine ⟨?_, ?_⟩
  · simp [bta_ag_mgmt_cback, World.logs, World.emit, hs, hconn, hserv, found_in_serv_handle]
  · rw [bta_ag_mgmt_cback_table]
    exact hs

/-- Witness of C2 as amended: slot 3, server handles `[7, 0]`, success event on 7. -/
theorem mgmt_inbound_success_posts_open_witness :
    (world0 3 (scb0 3 0 [7, 0] 1)).bta_ag_scb_by_idx 3 = some (scb0 3 0 [7, 0] 1) ∧
    (scb0 3 0 [7, 0] 1).conn_handle = 0 ∧ (scb0 3 0 [7, 0] 1).serv_handle = [7, 0] ∧
    (7 : Nat) ≠ 0 ∧
    ((bta_ag_mgmt_cback env0 (world0 3 (scb0 3 0 [7, 0] 1)) env0.PORT_SUCCESS 7 3).trace =
      (world0 3 (scb0 3 0 [7, 0] 1)).trace ++ [Effect.do_in_main_thread 3 .BTA_AG_RFC_OPEN_EVT
        { rfc := { port_handle := 7 } }] ∧
    (bta_ag_mgmt_cback env0 (world0 3 (scb0 3 0 [7, 0] 1)) env0.PORT_SUCCESS 7
      3).bta_ag_scb_by_idx 3 = some (scb0 3 0 [7, 0] 1)) :=
  ⟨rfl, rfl, rfl, by decide,
    mgmt_inbound_success_posts_open env0 (world0 3 (scb0 3 0 [7, 0] 1)) 7 3
      (scb0 3 0 [7, 0] 1) rfl rfl rfl (by decide)⟩

/-- C2 counterexample: slot 3 with the connection handle unset and server handles `[7, 0]`;
after the success event on 7 the session still has connection handle 0, not 7. -/
theorem mgmt_inbound_promotion_counterexample :
    (world0 3 (scb0 3 0 [7, 0] 1)).bta_ag_scb_by_idx 3 = some (scb0 3 0 [7, 0] 1) ∧
    Option.map tBTA_AG_SCB.conn_handle
      ((bta_ag_mgmt_cback env0 (world0 3 (scb0 3 0 [7, 0] 1)) env0.PORT_SUCCESS 7
        3).bta_ag_scb_by_idx 3) = some 0 ∧
    Option.map tBTA_AG_SCB.conn_handle
      ((bta_ag_mgmt_cback env0 (world0 3 (scb0 3 0 [7, 0] 1)) env0.PORT_SUCCESS 7
        3).bta_ag_scb_by_idx 3) ≠ some 7 := by
  decide

/-- C3 (as the code behaves): on a success event the callback posts exactly one
`BTA_AG_RFC_OPEN_EVT` envelope for the slot, carrying the port handle, if and only if the
connection handle is set and equals the port handle, or the connection handle is unset and
the port handle equals an entry of `serv_handle` (any entry, an unset one included); in every
other case it posts nothing. -/
theorem mgmt_success_posts_open_iff (E : Env) (w : World) (port_handle handle : Nat)
    (p_scb : tBTA_AG_SCB) (hs : w.bta_ag_scb_by_idx handle = some p_scb) :
    ((bta_ag_mgmt_cback E w E.PORT_SUCCESS port_handle handle).trace =
        w.trace ++ [Effect.do_in_main_thread handle .BTA_AG_RFC_OPEN_EVT
          { rfc := { port_handle := port_handle } }] ↔
      ((p_scb.conn_handle ≠ 0 ∧ port_handle = p_scb.conn_handle) ∨
        (p_scb.conn_handle = 0 ∧ port_handle ∈ p_scb.serv_handle))) ∧
    (¬ ((p_scb.conn_handle ≠ 0 ∧ port_handle = p_scb.conn_handle) ∨
        (p_scb.conn_handle = 0 ∧ port_handle ∈ p_scb.serv_handle)) →
      (bta_ag_mgmt_cback E w E.PORT_SUCCESS port_handle handle).trace = w.trace) := by
  by_cases hc : p_scb.conn_handle = 0
  · by_cases hm : port_handle ∈ p_scb.serv_handle
    · have hf := (found_in_serv_handle_iff port_handle p_scb.serv_handle).2 hm
      simp [bta_ag_mgmt_cback, World.logs, World.emit, hs, hc, hm, hf]
    · have hf : found_in_serv_handle port_handle p_scb.serv_handle = false := by
        cases h : found_in_serv_handle port_handle p_scb.serv_handle with
        | false => rfl
        | true => exact absurd ((found_in_serv_handle_iff _ _).1 h) hm
      simp [bta_ag_mgmt_cback, World.logs, World.emit, hs, hc, hm, hf]
  · by_cases he : port_handle = p_scb.conn_handle
    · subst he
      simp [bta_ag_mgmt_cback, World.logs, World.emit, hs, hc]
    · simp [bta_ag_mgmt_cback, World.logs, World.emit, hs, hc, he]

/-- Witness of C3 as amended: slot 2, connection handle 5, success event on 5. -/
theorem mgmt_success_posts_open_iff_witness :
    (world0 2 (scb0 2 5 [7, 0] 1)).bta_ag_scb_by_idx 2 = some (scb0 2 5 [7, 0] 1) ∧
    (((bta_ag_mgmt_cback env0 (world0 2 (scb0 2 5 [7, 0] 1)) env0.PORT_SUCCESS 5 2).trace =
        (world0 2 (scb0 2 5 [7, 0] 1)).trace ++ [Effect.do_in_main_thread 2 .BTA_AG_RFC_OPEN_EVT
          { rfc := { port_handle := 5 } }] ↔
      (((scb0 2 5 [7, 0] 1).conn_handle ≠ 0 ∧ 5 = (scb0 2 5 [7, 0] 1).conn_handle) ∨
        ((scb0 2 5 [7, 0] 1).conn_handle = 0 ∧ 5 ∈ (scb0 2 5 [7, 0] 1).serv_handle))) ∧
    (¬ (((scb0 2 5 [7, 0] 1).conn_handle ≠ 0 ∧ 5 = (scb0 2 5 [7, 0] 1).conn_handle) ∨
        ((scb0 2 5 [7, 0] 1).conn_handle = 0 ∧ 5 ∈ (scb0 2 5 [7, 0] 1).serv_handle)) →
      (bta_ag_mgmt_cback env0 (world0 2 (scb0 2 5 [7, 0] 1)) env0.PORT_SUCCESS 5 2).trace =
        (world0 2 (scb0 2 5 [7, 0] 1)).trace)) :=
  ⟨rfl, mgmt_success_posts_open_iff env0 (world0 2 (scb0 2 5 [7, 0] 1)) 5 2
    (scb0 2 5 [7, 0] 1) rfl⟩

/-- C3 counterexample: slot 3, connection handle unset, server handles `[7, 0]`, success
event on port handle 0.  Neither condition of the claim holds (0 is no listening server
handle), yet one `BTA_AG_RFC_OPEN_EVT` envelope carrying handle 0 is posted. -/
theorem mgmt_success_zero_handle_counterexample :
    (world0 3 (scb0 3 0 [7, 0] 1)).bta_ag_scb_by_idx 3 = some (scb0 3 0 [7, 0] 1) ∧
    ¬ (((scb0 3 0 [7, 0] 1).conn_handle ≠ 0 ∧ 0 = (scb0 3 0 [7, 0] 1).conn_handle) ∨
      ((scb0 3 0 [7, 0] 1).conn_handle = 0 ∧
        ∃ h ∈ (scb0 3 0 [7, 0] 1).serv_handle, h ≠ 0 ∧ 0 = h)) ∧
    (bta_ag_mgmt_cback env0 (world0 3 (scb0 3 0 [7, 0] 1)) env0.PORT_SUCCESS 0 3).trace =
      [Effect.do_in_main_thread 3 .BTA_AG_RFC_OPEN_EVT { rfc := { port_handle := 0 } }] := by
  decide

/-- C4: for an existing session, a failure event whose port handle is the session's
connection handle posts exactly one `BTA_AG_RFC_CLOSE_EVT` envelope for the slot, carrying
the port handle. -/
theorem mgmt_connection_failure_posts_close (E : Env) (w : World)
    (code port_handle handle : Nat) (p_scb : tBTA_AG_SCB)
    (hs : w.bta_ag_scb_by_idx handle = some p_scb) (hc : code ≠ E.PORT_SUCCESS)
    (he : port_handle = p_scb.conn_handle) :
    (bta_ag_mgmt_cback E w code port_handle handle).trace =
      w.trace ++ [Effect.do_in_main_thread handle .BTA_AG_RFC_CLOSE_EVT
        { rfc := { port_handle := port_handle } }] := by
  subst he
  simp [bta_ag_mgmt_cback, World.logs, World.emit, hs, hc]

/-- Witness of C4: slot 4, connection handle 9, failure event (code 3) on 9. -/
theorem mgmt_connection_failure_posts_close_witness :
    (world0 4 (scb0 4 9 [7, 8] 2)).bta_ag_scb_by_idx 4 = some (scb0 4 9 [7, 8] 2) ∧
    (3 : Nat) ≠ env0.PORT_SUCCESS ∧ 9 = (scb0 4 9 [7, 8] 2).conn_handle ∧
    (bta_ag_mgmt_cback env0 (world0 4 (scb0 4 9 [7, 8] 2)) 3 9 4).trace =
      (world0 4 (scb0 4 9 [7, 8] 2)).trace ++ [Effect.do_in_main_thread 4 .BTA_AG_RFC_CLOSE_EVT
        { rfc := { port_handle := 9 } }] :=
  ⟨rfl, by decide, rfl,
    mgmt_connection_failure_posts_close env0 (world0 4 (scb0 4 9 [7, 8] 2)) 3 9 4
      (scb0 4 9 [7, 8] 2) rfl (by decide) rfl⟩

/-- C5: for an existing session, a failure event whose port handle differs from the
session's connection handle is dropped: nothing is added to the trace and the session table
is unchanged. -/
theorem mgmt_stale_failure_dropped (E : Env) (w : World)
    (code port_handle handle : Nat) (p_scb : tBTA_AG_SCB)
    (hs : w.bta_ag_scb_by_idx handle = some p_scb) (hc : code ≠ E.PORT_SUCCESS)
    (hn : port_handle ≠ p_scb.conn_handle) :
    (bta_ag_mgmt_cback E w code port_handle handle).trace = w.trace ∧
    (bta_ag_mgmt_cback E w code port_handle handle).bta_ag_scb_by_idx = w.bta_ag_scb_by_idx := by
  refine ⟨?_, bta_ag_mgmt_cback_table E w code port_handle handle⟩
  simp [bta_ag_mgmt_cback, World.logs, World.emit, hs, hc, hn]

/-- Witness of C5: slot 1, connection handle 4, failure event (code 2) on handle 6. -/
theorem mgmt_stale_failure_dropped_witness :
    (world0 1 (scb0 1 4 [0, 0] 2)).bta_ag_scb_by_idx 1 = some (scb0 1 4 [0, 0] 2) ∧
    (2 : Nat) ≠ env0.PORT_SUCCESS ∧ 6 ≠ (scb0 1 4 [0, 0] 2).conn_handle ∧
    ((bta_ag_mgmt_cback env0 (world0 1 (scb0 1 4 [0, 0] 2)) 2 6 1).trace =
      (world0 1 (scb0 1 4 [0, 0] 2)).trace ∧
    (bta_ag_mgmt_cback env0 (world0 1 (scb0 1 4 [0, 0] 2)) 2 6 1).bta_ag_scb_by_idx =
      (world0 1 (scb0 1 4 [0, 0] 2)).bta_ag_scb_by_idx) :=
  ⟨rfl, by decide, by decide,
    mgmt_stale_failure_dropped env0 (world0 1 (scb0 1 4 [0, 0] 2)) 2 6 1
      (scb0 1 4 [0, 0] 2) rfl (by decide) (by decide)⟩

/-! ## Port translator -/

/-- C6: for an existing session and any event code, a port event whose port handle differs
from the session's connection handle adds nothing to the trace, so no `BTA_AG_RFC_DATA_EVT`
envelope is posted. -/
theorem port_stale_handle_rejected (E : Env) (w : World)
    (code port_handle handle : Nat) (p_scb : tBTA_AG_SCB)
    (hs : w.bta_ag_scb_by_idx handle = some p_scb)
    (hn : port_handle ≠ p_scb.conn_handle) :
    (bta_ag_port_cback E w code port_handle handle).trace = w.trace := by
  simp [bta_ag_port_cback, World.logs, hs, hn]

/-- Witness of C6: slot 5, connection handle 4, port event (code 1) on handle 8. -/
theorem port_stale_handle_rejected_witness :
    (world0 5 (scb0 5 4 [0, 0] 2)).bta_ag_scb_by_idx 5 = some (scb0 5 4 [0, 0] 2) ∧
    8 ≠ (scb0 5 4 [0, 0] 2).conn_handle ∧
    (bta_ag_port_cback env0 (world0 5 (scb0 5 4 [0, 0] 2)) 1 8 5).trace =
      (world0 5 (scb0 5 4 [0, 0] 2)).trace :=
  ⟨rfl, by decide,
    port_stale_handle_rejected env0 (world0 5 (scb0 5 4 [0, 0] 2)) 1 8 5
      (scb0 5 4 [0, 0] 2) rfl (by decide)⟩

/-- C7: for an existing session, a port event on the session's connection handle posts
exactly one `BTA_AG_RFC_DATA_EVT` envelope for the slot with the empty payload, whatever
`bta_ag_scb_open` answers for the session; that answer shows only in the log, which gets one
error line exactly when the session is not open. -/
theorem port_data_forwarded (E : Env) (w : World)
    (code port_handle handle : Nat) (p_scb : tBTA_AG_SCB)
    (hs : w.bta_ag_scb_by_idx handle = some p_scb)
    (he : port_handle = p_scb.conn_handle) :
    (bta_ag_port_cback E w code port_handle handle).trace =
      w.trace ++ [Effect.do_in_main_thread handle .BTA_AG_RFC_DATA_EVT tBTA_AG_DATA.kEmpty] ∧
    (bta_ag_port_cback E w code port_handle handle).log =
      (if E.bta_ag_scb_open p_scb = true then w.log else w.log ++ [LogLevel.error]) := by
  subst he
  cases ho : E.bta_ag_scb_open p_scb <;>
    simp [bta_ag_port_cback, World.logs, World.emit, hs, ho]

/-- Witness of C7: slot 6, connection handle 4, session not open (state 1), port event on
handle 4. -/
theorem port_data_forwarded_witness :
    (world0 6 (scb0 6 4 [0, 0] 1)).bta_ag_scb_by_idx 6 = some (scb0 6 4 [0, 0] 1) ∧
    4 = (scb0 6 4 [0, 0] 1).conn_handle ∧
    ((bta_ag_port_cback env0 (world0 6 (scb0 6 4 [0, 0] 1)) 1 4 6).trace =
      (world0 6 (scb0 6 4 [0, 0] 1)).trace ++
        [Effect.do_in_main_thread 6 .BTA_AG_RFC_DATA_EVT tBTA_AG_DATA.kEmpty] ∧
    (bta_ag_port_cback env0 (world0 6 (scb0 6 4 [0, 0] 1)) 1 4 6).log =
      (if env0.bta_ag_scb_open (scb0 6 4 [0, 0] 1) = true then (world0 6 (scb0 6 4 [0, 0] 1)).log
        else (world0 6 (scb0 6 4 [0, 0] 1)).log ++ [LogLevel.error])) :=
  ⟨rfl, rfl,
    port_data_forwarded env0 (world0 6 (scb0 6 4 [0, 0] 1)) 1 4 6 (scb0 6 4 [0, 0] 1) rfl rfl⟩

/-! ## Callback identity registry -/

/-- C8: for every slot index `i` in 1..6, entry `i` of the port table is a callback that
behaves as `bta_ag_port_cback` called with slot `i`, entry `i` of the management table is a
callback that behaves as `bta_ag_mgmt_cback` called with slot `i`, everything either of them
adds to the trace is addressed to slot `i`, and no other slot index in 1..6 has the same
entry in either table. -/
theorem callback_tables_bijective (i : Nat) (h1 : 1 ≤ i) (h6 : i ≤ 6) :
    (∃ f, bta_ag_port_cback_tbl.get? (i - 1) = some f ∧
      (∀ E w code port_handle,
        f.invoke E w code port_handle = bta_ag_port_cback E w code port_handle i) ∧
      (∀ E w code port_handle, ∃ added,
        (f.invoke E w code port_handle).trace = w.trace ++ added ∧
          ∀ e ∈ added, e.slot = some i)) ∧
    (∃ g, bta_ag_mgmt_cback_tbl.get? (i - 1) = some g ∧
      (∀ E w code port_handle,
        g.invoke E w code port_handle = bta_ag_mgmt_cback E w code port_handle i) ∧
      (∀ E w code port_handle, ∃ added,
        (g.invoke E w code port_handle).trace = w.trace ++ added ∧
          ∀ e ∈ added, e.slot = some i)) ∧
    (∀ j, 1 ≤ j → j ≤ 6 →
      bta_ag_port_cback_tbl.get? (j - 1) = bta_ag_port_cback_tbl.get? (i - 1) → j = i) ∧
    (∀ j, 1 ≤ j → j ≤ 6 →
      bta_ag_mgmt_cback_tbl.get? (j - 1) = bta_ag_mgmt_cback_tbl.get? (i - 1) → j = i) := by
  refine ⟨?_, ?_, ?_, ?_⟩
  · interval_cases i
    all_goals
      exact ⟨_, rfl, fun _ _ _ _ => rfl, fun E w code port_handle =>
        bta_ag_port_cback_slot E w code port_handle _⟩
  · interval_cases i
    all_goals
      exact ⟨_, rfl, fun _ _ _ _ => rfl, fun E w code port_handle =>
        bta_ag_mgmt_cback_slot E w code port_handle _⟩
  · intro j hj1 hj6
    interval_cases i <;> interval_cases j <;> decide
  · intro j hj1 hj6
    interval_cases i <;> interval_cases j <;> decide

/-- Witness of C8: slot 4. -/
theorem callback_tables_bijective_witness :
    1 ≤ 4 ∧ 4 ≤ 6 ∧
    ((∃ f, bta_ag_port_cback_tbl.get? (4 - 1) = some f ∧
      (∀ E w code port_handle,
        f.invoke E w code port_handle = bta_ag_port_cback E w code port_handle 4) ∧
      (∀ E w code port_handle, ∃ added,
        (f.invoke E w code port_handle).trace = w.trace ++ added ∧
          ∀ e ∈ added, e.slot = some 4)) ∧
    (∃ g, bta_ag_mgmt_cback_tbl.get? (4 - 1) = some g ∧
      (∀ E w code port_handle,
        g.invoke E w code port_handle = bta_ag_mgmt_cback E w code port_handle 4) ∧
      (∀ E w code port_handle, ∃ added,
        (g.invoke E w code port_handle).trace = w.trace ++ added ∧
          ∀ e ∈ added, e.slot = some 4)) ∧
    (∀ j, 1 ≤ j → j ≤ 6 →
      bta_ag_port_cback_tbl.get? (j - 1) = bta_ag_port_cback_tbl.get? (4 - 1) → j = 4) ∧
    (∀ j, 1 ≤ j → j ≤ 6 →
      bta_ag_mgmt_cback_tbl.get? (j - 1) = bta_ag_mgmt_cback_tbl.get? (4 - 1) → j = 4)) :=
  ⟨by decide, by decide, callback_tables_bijective 4 (by decide) (by decide)⟩

/-! ## Slot range checks -/

/-- With a slot index outside 1..6, `bta_ag_setup_port` aborts in the state it was entered
with: before the table read and before any request to the transport. -/
theorem bta_ag_setup_port_slot_check (E : Env) (r : Run) (handle : Nat)
    (h : r.p_scb.slot_index < 1 ∨ 6 < r.p_scb.slot_index) :
    bta_ag_setup_port E r handle = .fatal r := by
  unfold bta_ag_setup_port bta_ag_scb_to_idx
  simp only [bta_ag_port_cback_tbl, List.length_cons, List.length_nil]
  rcases h with h | h
  · rw [if_pos (by omega)]
  · rw [if_neg (by omega), if_pos (by push_cast; omega)]

/-- With a slot index outside 1..6 and a bit set among the remaining `k` service bits, the
loop of `bta_ag_start_servers` aborts in the state it was entered with. -/
theorem bta_ag_start_servers_loop_slot_check (E : Env) (r : Run)
    (h : r.p_scb.slot_index < 1 ∨ 6 < r.p_scb.slot_index) :
    ∀ (k i services : Nat), services % 2 ^ k ≠ 0 →
      bta_ag_start_servers_loop E k i services r = .fatal r := by
  intro k
  induction k with
  | zero => intro i services hs; simp [Nat.mod_one] at hs
  | succ k ih =>
    intro i services hs
    have hne : services ≠ 0 := by
      rintro rfl
      simp at hs
    unfold bta_ag_start_servers_loop
    rw [if_neg hne]
    by_cases hb : services &&& 1 ≠ 0
    · rw [if_pos hb]
      simp only [bta_ag_scb_to_idx, bta_ag_mgmt_cback_tbl, List.length_cons, List.length_nil]
      rcases h with h | h
      · rw [if_pos (by omega)]
      · rw [if_neg (by omega), if_pos (by push_cast; omega)]
    · rw [if_neg hb]
      apply ih
      have hev : services % 2 = 0 := by
        rw [Nat.and_one_is_mod] at hb
        omega
      rw [Nat.shiftRight_eq_div_pow, pow_one]
      intro hz
      apply hs
      rw [pow_succ, Nat.mul_comm, Nat.mod_mul, hev, hz]

/-- With a slot index outside 1..6 and at least one supported service bit set in the mask,
`bta_ag_start_servers` aborts in the state it was entered with: before any table read and
before any request to the transport. -/
theorem bta_ag_start_servers_slot_check (E : Env) (r : Run) (services : Nat)
    (h : r.p_scb.slot_index < 1 ∨ 6 < r.p_scb.slot_index)
    (hbit : (services >>> E.BTA_HSP_SERVICE_ID) % 2 ^ E.BTA_AG_NUM_IDX ≠ 0) :
    bta_ag_start_servers E r services = .fatal r :=
  bta_ag_start_servers_loop_slot_check E r h _ _ _ hbit

/-- C9, the code at a failing input: `bta_ag_rfc_do_open` on a session whose slot index is
7.  No check precedes the table read `bta_ag_mgmt_cback_tbl[6]`, which is outside the table,
nor the create request.  When the transport refuses the request the operation returns after
running the state machine; when the transport accepts it, the process is aborted only by the
check in `bta_ag_setup_port`, after the request has been issued. -/
theorem do_open_slot_unchecked :
    bta_ag_rfc_do_open env1 ⟨scb0 7 0 [0, 0] 0, [], []⟩ tBTA_AG_DATA.kEmpty =
      .done ⟨scb0 7 0 [0, 0] 0,
        [.RFCOMM_CreateConnectionWithSecurity
            { uuid := 0x111E, scn := 3, is_server := false, mtu := 256, bd_addr := 0xAABBCC,
              p_mgmt_callback := none, sec_mask := 6 },
         .bta_ag_sm_execute 7 .BTA_AG_RFC_CLOSE_EVT tBTA_AG_DATA.kEmpty],
        [.verbose, .error]⟩ ∧
    bta_ag_rfc_do_open env0 ⟨scb0 7 0 [0, 0] 0, [], []⟩ tBTA_AG_DATA.kEmpty =
      .fatal ⟨scb0 7 1 [0, 0] 0,
        [.RFCOMM_CreateConnectionWithSecurity
            { uuid := 0x111E, scn := 3, is_server := false, mtu := 256, bd_addr := 0xAABBCC,
              p_mgmt_callback := none, sec_mask := 6 }],
        [.verbose]⟩ := by
  decide

/-! ## Closing the connection -/

/-- C10: on a session whose connection handle is unset, `bta_ag_rfc_do_close` adds exactly
one call to the trace, the `BTA_AG_RFC_CLOSE_EVT` envelope with the empty payload addressed
to the session's own slot index; that call is no transport request, and the session record
is left as it was. -/
theorem do_close_pending_posts_close (E : Env) (r : Run) (data : tBTA_AG_DATA)
    (h : r.p_scb.conn_handle = 0) :
    (bta_ag_rfc_do_close E r data).trace =
      r.trace ++ [Effect.do_in_main_thread r.p_scb.slot_index .BTA_AG_RFC_CLOSE_EVT
        tBTA_AG_DATA.kEmpty] ∧
    (Effect.do_in_main_thread r.p_scb.slot_index .BTA_AG_RFC_CLOSE_EVT
      tBTA_AG_DATA.kEmpty).isTransport = false ∧
    (bta_ag_rfc_do_close E r data).p_scb = r.p_scb := by
  simp [bta_ag_rfc_do_close, Run.logs, Run.emit, bta_ag_scb_to_idx, h, Effect.isTransport]

/-- Witness of C10: slot 2, connection handle unset, after one earlier call. -/
theorem do_close_pending_posts_close_witness :
    (Run.mk (scb0 2 0 [7, 0] 1) [.RFCOMM_RemoveServer 8] []).p_scb.conn_handle = 0 ∧
    ((bta_ag_rfc_do_close env0 (Run.mk (scb0 2 0 [7, 0] 1) [.RFCOMM_RemoveServer 8] [])
        { rfc := { port_handle := 5 } }).trace =
      (Run.mk (scb0 2 0 [7, 0] 1) [.RFCOMM_RemoveServer 8] []).trace ++
        [Effect.do_in_main_thread (Run.mk (scb0 2 0 [7, 0] 1) [.RFCOMM_RemoveServer 8]
          []).p_scb.slot_index .BTA_AG_RFC_CLOSE_EVT tBTA_AG_DATA.kEmpty] ∧
    (Effect.do_in_main_thread (Run.mk (scb0 2 0 [7, 0] 1) [.RFCOMM_RemoveServer 8]
      []).p_scb.slot_index .BTA_AG_RFC_CLOSE_EVT tBTA_AG_DATA.kEmpty).isTransport = false ∧
    (bta_ag_rfc_do_close env0 (Run.mk (scb0 2 0 [7, 0] 1) [.RFCOMM_RemoveServer 8] [])
        { rfc := { port_handle := 5 } }).p_scb =
      (Run.mk (scb0 2 0 [7, 0] 1) [.RFCOMM_RemoveServer 8] []).p_scb) :=
  ⟨rfl, do_close_pending_posts_close env0
    (Run.mk (scb0 2 0 [7, 0] 1) [.RFCOMM_RemoveServer 8] []) { rfc := { port_handle := 5 } } rfl⟩

/-- C16: on a session whose connection handle is set to `h`, `bta_ag_rfc_do_close` adds
exactly one call to the trace, the transport request `RFCOMM_RemoveConnection(h)`, which is
no envelope, and leaves the session record, the connection handle included, as it was. -/
theorem do_close_active_requests_removal (E : Env) (r : Run) (data : tBTA_AG_DATA)
    (h : r.p_scb.conn_handle ≠ 0) :
    (bta_ag_rfc_do_close E r data).trace =
      r.trace ++ [Effect.RFCOMM_RemoveConnection r.p_scb.conn_handle] ∧
    (Effect.RFCOMM_RemoveConnection r.p_scb.conn_handle).slot = none ∧
    (bta_ag_rfc_do_close E r data).p_scb = r.p_scb := by
  simp [bta_ag_rfc_do_close, Run.logs, Run.emit, h, Effect.slot]

/-- Witness of C16: slot 2, connection handle 9. -/
theorem do_close_active_requests_removal_witness :
    (Run.mk (scb0 2 9 [7, 0] 2) [] []).p_scb.conn_handle ≠ 0 ∧
    ((bta_ag_rfc_do_close env0 (Run.mk (scb0 2 9 [7, 0] 2) [] []) tBTA_AG_DATA.kEmpty).trace =
      (Run.mk (scb0 2 9 [7, 0] 2) [] []).trace ++
        [Effect.RFCOMM_RemoveConnection (Run.mk (scb0 2 9 [7, 0] 2) [] []).p_scb.conn_handle] ∧
    (Effect.RFCOMM_RemoveConnection
      (Run.mk (scb0 2 9 [7, 0] 2) [] []).p_scb.conn_handle).slot = none ∧
    (bta_ag_rfc_do_close env0 (Run.mk (scb0 2 9 [7, 0] 2) [] []) tBTA_AG_DATA.kEmpty).p_scb =
      (Run.mk (scb0 2 9 [7, 0] 2) [] []).p_scb) :=
  ⟨by decide, do_close_active_requests_removal env0 (Run.mk (scb0 2 9 [7, 0] 2) [] [])
    tBTA_AG_DATA.kEmpty (by decide)⟩

/-! ## Reach of the translators -/

/-- C18: whatever the slot index, session table, event code and port handle, every call
`bta_ag_mgmt_cback` adds to the trace is an envelope of kind `BTA_AG_RFC_OPEN_EVT` or
`BTA_AG_RFC_CLOSE_EVT`; `BTA_AG_RFC_SRV_CLOSE_EVT` is never posted. -/
theorem mgmt_never_posts_server_close (E : Env) (w : World) (code port_handle handle : Nat) :
    ∃ added, (bta_ag_mgmt_cback E w code port_handle handle).trace = w.trace ++ added ∧
      ∀ e ∈ added, e.kind = some .BTA_AG_RFC_OPEN_EVT ∨ e.kind = some .BTA_AG_RFC_CLOSE_EVT := by
  unfold bta_ag_mgmt_cback
  simp only [World.logs, World.emit]
  split
  · exact ⟨[], by simp⟩
  · split_ifs
    all_goals first
      | (exfalso; simp_all; done)
      | exact ⟨[_], rfl, by simp [Effect.kind]⟩
      | exact ⟨[], by simp⟩

/-- C19: the port callback does the same for any two event codes; in particular, on the
connection handle of an existing session, a code without the `PORT_EV_RXCHAR` bit still posts
the `BTA_AG_RFC_DATA_EVT` envelope. -/
theorem port_cback_ignores_code (E : Env) (w : World) (c1 c2 port_handle handle : Nat) :
    bta_ag_port_cback E w c1 port_handle handle = bta_ag_port_cback E w c2 port_handle handle ∧
    ∀ p_scb, w.bta_ag_scb_by_idx handle = some p_scb → port_handle = p_scb.conn_handle →
      c1 &&& E.PORT_EV_RXCHAR = 0 →
      (bta_ag_port_cback E w c1 port_handle handle).trace =
        w.trace ++ [Effect.do_in_main_thread handle .BTA_AG_RFC_DATA_EVT
          tBTA_AG_DATA.kEmpty] := by
  refine ⟨rfl, ?_⟩
  intro p_scb hs he _
  subst he
  cases ho : E.bta_ag_scb_open p_scb <;>
    simp [bta_ag_port_cback, World.logs, World.emit, hs, ho]

/-- Witness of C19: slot 3, connection handle 4, event codes 2 and 1 (`PORT_EV_RXCHAR` is
1), port event on handle 4. -/
theorem port_cback_ignores_code_witness :
    (world0 3 (scb0 3 4 [0, 0] 2)).bta_ag_scb_by_idx 3 = some (scb0 3 4 [0, 0] 2) ∧
    4 = (scb0 3 4 [0, 0] 2).conn_handle ∧ 2 &&& env0.PORT_EV_RXCHAR = 0 ∧
    bta_ag_port_cback env0 (world0 3 (scb0 3 4 [0, 0] 2)) 2 4 3 =
      bta_ag_port_cback env0 (world0 3 (scb0 3 4 [0, 0] 2)) 1 4 3 ∧
    (bta_ag_port_cback env0 (world0 3 (scb0 3 4 [0, 0] 2)) 2 4 3).trace =
      (world0 3 (scb0 3 4 [0, 0] 2)).trace ++
        [Effect.do_in_main_thread 3 .BTA_AG_RFC_DATA_EVT tBTA_AG_DATA.kEmpty] :=
  ⟨rfl, rfl, by decide,
    (port_cback_ignores_code env0 (world0 3 (scb0 3 4 [0, 0] 2)) 2 1 4 3).1,
    (port_cback_ignores_code env0 (world0 3 (scb0 3 4 [0, 0] 2)) 2 1 4 3).2
      (scb0 3 4 [0, 0] 2) rfl rfl (by decide)⟩

/-! ## Opening the connection -/

/-- The two ways `bta_ag_setup_port` can end: aborted in the state it was entered with, or
returned after the two port requests. -/
theorem bta_ag_setup_port_cases (E : Env) (r : Run) (handle : Nat) :
    bta_ag_setup_port E r handle = .fatal r ∨
    bta_ag_setup_port E r handle =
      .done ((r.emit (.PORT_SetEventMask handle (BTA_AG_PORT_EV_MASK E))).emit
        (.PORT_SetEventCallback handle
          (tbl_at bta_ag_port_cback_tbl ((bta_ag_scb_to_idx r.p_scb : Int) - 1)))) := by
  unfold bta_ag_setup_port
  dsimp only
  split_ifs <;> simp

/-- Entered right after one call that is no close event, `bta_ag_setup_port` ends with
nothing but non-close calls added to the trace before that call. -/
theorem bta_ag_setup_port_adds_no_close (E : Env) (r1 : Run) (handle : Nat)
    (pre : List Effect) (c : Effect) (hr1 : r1.trace = pre ++ [c])
    (hc : c.isClosed = false) :
    ∃ added, (bta_ag_setup_port E r1 handle).run.trace = pre ++ added ∧
      ∀ e ∈ added, e.isClosed = false := by
  rcases bta_ag_setup_port_cases E r1 handle with h | h
  · rw [h]
    exact ⟨[c], hr1, by simpa using hc⟩
  · rw [h]
    refine ⟨[c, .PORT_SetEventMask handle (BTA_AG_PORT_EV_MASK E),
      .PORT_SetEventCallback handle
        (tbl_at bta_ag_port_cback_tbl ((bta_ag_scb_to_idx r1.p_scb : Int) - 1))], ?_, ?_⟩
    · simp [Outcome.run, Run.emit, hr1]
    · intro e he
      simp only [List.mem_cons, List.mem_singleton, List.not_mem_nil, or_false] at he
      rcases he with rfl | rfl | rfl
      · exact hc
      · rfl
      · rfl


/-- C11: when the transport answers the create request of `bta_ag_rfc_do_open` with a failure
status, the operation returns having added to the trace the create request and exactly one
`BTA_AG_RFC_CLOSE_EVT` for the session's slot, run on the state machine with the caller's
data, and no `PORT_SetEventMask` / `PORT_SetEventCallback`; when the transport answers
`PORT_SUCCESS`, nothing it adds to the trace is a `BTA_AG_RFC_CLOSE_EVT`. -/
theorem do_open_fast_fail (E : Env) (r : Run) (data : tBTA_AG_DATA) :
    ((E.RFCOMM_CreateConnectionWithSecurity r.trace (bta_ag_rfc_do_open_req E r.p_scb)
        r.p_scb.conn_handle).1 ≠ E.PORT_SUCCESS →
      (bta_ag_rfc_do_open E r data).isFatal = false ∧
      (bta_ag_rfc_do_open E r data).run.trace =
        r.trace ++ [Effect.RFCOMM_CreateConnectionWithSecurity (bta_ag_rfc_do_open_req E r.p_scb),
          Effect.bta_ag_sm_execute r.p_scb.slot_index .BTA_AG_RFC_CLOSE_EVT data]) ∧
    ((E.RFCOMM_CreateConnectionWithSecurity r.trace (bta_ag_rfc_do_open_req E r.p_scb)
        r.p_scb.conn_handle).1 = E.PORT_SUCCESS →
      ∃ added, (bta_ag_rfc_do_open E r data).run.trace = r.trace ++ added ∧
        ∀ e ∈ added, e.isClosed = false) := by
  constructor
  · intro hf
    have hf2 : ¬ (E.RFCOMM_CreateConnectionWithSecurity r.trace
        { uuid := E.bta_ag_uuid r.p_scb.conn_service, scn := r.p_scb.peer_scn,
          is_server := false, mtu := E.BTA_AG_MTU, bd_addr := r.p_scb.peer_addr,
          p_mgmt_callback := tbl_at bta_ag_mgmt_cback_tbl ((bta_ag_scb_to_idx r.p_scb : Int) - 1),
          sec_mask := E.BTA_SEC_AUTHENTICATE ||| E.BTA_SEC_ENCRYPT }
        r.p_scb.conn_handle).1 = E.PORT_SUCCESS := hf
    unfold bta_ag_rfc_do_open
    simp only [hf2, if_false]
    simp [Outcome.isFatal, Outcome.run, Run.emit, Run.logs, Run.set_conn_handle,
      bta_ag_rfc_do_open_req, bta_ag_scb_to_idx]
  · intro hsucc
    have hs2 : (E.RFCOMM_CreateConnectionWithSecurity r.trace
        { uuid := E.bta_ag_uuid r.p_scb.conn_service, scn := r.p_scb.peer_scn,
          is_server := false, mtu := E.BTA_AG_MTU, bd_addr := r.p_scb.peer_addr,
          p_mgmt_callback := tbl_at bta_ag_mgmt_cback_tbl ((bta_ag_scb_to_idx r.p_scb : Int) - 1),
          sec_mask := E.BTA_SEC_AUTHENTICATE ||| E.BTA_SEC_ENCRYPT }
        r.p_scb.conn_handle).1 = E.PORT_SUCCESS := hsucc
    unfold bta_ag_rfc_do_open
    simp only [hs2, if_true]
    exact bta_ag_setup_port_adds_no_close E _ _ r.trace _ rfl rfl

/-- Witness of C11: slot 3; the transport of `env1` refuses the request, the transport of
`env0` accepts it. -/
theorem do_open_fast_fail_witness :
    ((env1.RFCOMM_CreateConnectionWithSecurity (Run.mk (scb0 3 0 [0, 0] 1) [] []).trace
        (bta_ag_rfc_do_open_req env1 (Run.mk (scb0 3 0 [0, 0] 1) [] []).p_scb)
        (Run.mk (scb0 3 0 [0, 0] 1) [] []).p_scb.conn_handle).1 ≠ env1.PORT_SUCCESS ∧
      ((bta_ag_rfc_do_open env1 (Run.mk (scb0 3 0 [0, 0] 1) [] [])
          { rfc := { port_handle := 5 } }).isFatal = false ∧
        (bta_ag_rfc_do_open env1 (Run.mk (scb0 3 0 [0, 0] 1) [] [])
          { rfc := { port_handle := 5 } }).run.trace =
        (Run.mk (scb0 3 0 [0, 0] 1) [] []).trace ++
          [Effect.RFCOMM_CreateConnectionWithSecurity
            (bta_ag_rfc_do_open_req env1 (Run.mk (scb0 3 0 [0, 0] 1) [] []).p_scb),
          Effect.bta_ag_sm_execute (Run.mk (scb0 3 0 [0, 0] 1) [] []).p_scb.slot_index
            .BTA_AG_RFC_CLOSE_EVT { rfc := { port_handle := 5 } }])) ∧
    ((env0.RFCOMM_CreateConnectionWithSecurity (Run.mk (scb0 3 0 [0, 0] 1) [] []).trace
        (bta_ag_rfc_do_open_req env0 (Run.mk (scb0 3 0 [0, 0] 1) [] []).p_scb)
        (Run.mk (scb0 3 0 [0, 0] 1) [] []).p_scb.conn_handle).1 = env0.PORT_SUCCESS ∧
      ∃ added, (bta_ag_rfc_do_open env0 (Run.mk (scb0 3 0 [0, 0] 1) [] [])
          { rfc := { port_handle := 5 } }).run.trace =
          (Run.mk (scb0 3 0 [0, 0] 1) [] []).trace ++ added ∧
        ∀ e ∈ added, e.isClosed = false) :=
  ⟨⟨by decide, (do_open_fast_fail env1 (Run.mk (scb0 3 0 [0, 0] 1) [] [])
      { rfc := { port_handle := 5 } }).1 (by decide)⟩,
    ⟨rfl, (do_open_fast_fail env0 (Run.mk (scb0 3 0 [0, 0] 1) [] [])
      { rfc := { port_handle := 5 } }).2 rfl⟩⟩

/-! ## Listening servers -/

/-- The loop of `bta_ag_is_server_closed` answers true exactly when it was entered with
`is_closed` true and the `k` entries from `xx` on are all 0. -/
theorem bta_ag_is_server_closed_loop_iff (p_scb : tBTA_AG_SCB) :
    ∀ (k xx : Nat) (is_closed : Bool),
      bta_ag_is_server_closed_loop p_scb k xx is_closed = true ↔
        (is_closed = true ∧ ∀ j, j < k → p_scb.serv_handle.getD (xx + j) 0 = 0) := by
  intro k
  induction k with
  | zero => intro xx b; simp [bta_ag_is_server_closed_loop]
  | succ k ih =>
    intro xx b
    unfold bta_ag_is_server_closed_loop
    rw [ih]
    by_cases h0 : p_scb.serv_handle.getD xx 0 = 0
    · rw [if_neg (not_not.mpr h0)]
      constructor
      · rintro ⟨hb, hrest⟩
        refine ⟨hb, ?_⟩
        intro j hj
        cases j with
        | zero => exact h0
        | succ j =>
          have := hrest j (by omega)
          rw [show xx + (j + 1) = xx + 1 + j by omega]
          exact this
      · rintro ⟨hb, hall⟩
        refine ⟨hb, ?_⟩
        intro j hj
        have := hall (j + 1) (by omega)
        rw [show xx + 1 + j = xx + (j + 1) by omega]
        exact this
    · rw [if_pos h0]
      constructor
      · rintro ⟨hb, _⟩
        exact absurd hb (by decide)
      · rintro ⟨_, hall⟩
        exact absurd (hall 0 (by omega)) h0

/-- C13: for a session whose `serv_handle` array has its `BTA_AG_NUM_IDX` entries (a count
the `uint8_t` loop counter can reach), `bta_ag_is_server_closed` returns true if and only if
every entry of `serv_handle` is 0.  The function returns only the boolean: it has no access
to the record it reads. -/
theorem is_server_closed_iff (E : Env) (p_scb : tBTA_AG_SCB)
    (hlen : p_scb.serv_handle.length = E.BTA_AG_NUM_IDX) (hN : E.BTA_AG_NUM_IDX < 256) :
    bta_ag_is_server_closed E p_scb = true ↔ ∀ h ∈ p_scb.serv_handle, h = 0 := by
  unfold bta_ag_is_server_closed
  rw [bta_ag_is_server_closed_loop_iff]
  constructor
  · rintro ⟨_, hall⟩ h hmem
    obtain ⟨n, hn, rfl⟩ := List.getElem_of_mem hmem
    have := hall n (by omega)
    rw [Nat.zero_add, List.getD_eq_getElem _ _ hn] at this
    exact this
  · intro hall
    refine ⟨rfl, ?_⟩
    intro j hj
    rw [Nat.zero_add, List.getD_eq_getElem _ _ (by omega)]
    exact hall _ (List.getElem_mem _)

/-- Witness of C13: two services, server handles `[0, 0]`. -/
theorem is_server_closed_iff_witness :
    (scb0 1 4 [0, 0] 2).serv_handle.length = env0.BTA_AG_NUM_IDX ∧ env0.BTA_AG_NUM_IDX < 256 ∧
    (bta_ag_is_server_closed env0 (scb0 1 4 [0, 0] 2) = true ↔
      ∀ h ∈ (scb0 1 4 [0, 0] 2).serv_handle, h = 0) :=
  ⟨rfl, by decide, is_server_closed_iff env0 (scb0 1 4 [0, 0] 2) rfl (by decide)⟩

/-! ### Closing the servers: the loop, bit by bit -/

theorem and_one_ne_zero_iff (s : Nat) : (s &&& 1 ≠ 0) ↔ s.testBit 0 = true := by
  rw [Nat.and_one_is_mod, Nat.testBit_zero]
  simp

theorem testBit_shiftRight_one (s j : Nat) : (s >>> 1).testBit j = s.testBit (j + 1) := by
  rw [Nat.testBit_shiftRight, Nat.add_comm]

theorem getD_set_zero (l : List Nat) (i j : Nat) :
    (l.set i 0).getD j 0 = if j = i then 0 else l.getD j 0 := by
  simp only [List.getD_eq_getElem?_getD, List.getElem?_set]
  split_ifs with h1 h2 h3 <;> simp_all

theorem range_succ_filter_map {β : Type} (k : Nat) (p : Nat → Bool) (f : Nat → β) :
    ((List.range (k + 1)).filter p).map f =
      (if p 0 = true then [f 0] else []) ++
        ((List.range k).filter (fun j => p (j + 1))).map (fun j => f (j + 1)) := by
  rw [List.range_succ_eq_map, List.filter_cons, List.filter_map]
  split_ifs <;> simp [List.map_map, Function.comp_def]

/-- With no bit left in the mask the loop of `bta_ag_close_servers` does nothing. -/
theorem bta_ag_close_servers_loop_zero (k i : Nat) (r : Run) :
    bta_ag_close_servers_loop k i 0 r = r := by
  cases k <;> simp [bta_ag_close_servers_loop]

/-- One iteration of the loop of `bta_ag_close_servers`. -/
theorem bta_ag_close_servers_loop_succ (k i s : Nat) (r : Run) :
    bta_ag_close_servers_loop (k + 1) i s r =
      if s.testBit 0 = true then
        bta_ag_close_servers_loop k (i + 1) (s >>> 1)
          ((r.emit (.RFCOMM_RemoveServer (r.p_scb.serv_handle.getD i 0))).set_serv_handle i 0)
      else bta_ag_close_servers_loop k (i + 1) (s >>> 1) r := by
  rw [bta_ag_close_servers_loop]
  by_cases hs : s = 0
  · subst hs
    simp [bta_ag_close_servers_loop_zero]
  · rw [if_neg hs]
    by_cases hb : s &&& 1 ≠ 0
    · rw [if_pos hb, if_pos ((and_one_ne_zero_iff s).1 hb)]
    · rw [if_neg hb, if_neg (fun h => hb ((and_one_ne_zero_iff s).2 h))]

/-- The loop of `bta_ag_close_servers` writes nothing but `serv_handle` and logs nothing. -/
theorem bta_ag_close_servers_loop_frame :
    ∀ (k i s : Nat) (r : Run),
      (bta_ag_close_servers_loop k i s r).p_scb =
        { r.p_scb with serv_handle := (bta_ag_close_servers_loop k i s r).p_scb.serv_handle } ∧
      (bta_ag_close_servers_loop k i s r).log = r.log ∧
      (bta_ag_close_servers_loop k i s r).p_scb.serv_handle.length =
        r.p_scb.serv_handle.length := by
  intro k
  induction k with
  | zero => intro i s r; simp [bta_ag_close_servers_loop]
  | succ k ih =>
    intro i s r
    rw [bta_ag_close_servers_loop_succ]
    split_ifs
    · obtain ⟨h1, h2, h3⟩ := ih (i + 1) (s >>> 1)
        ((r.emit (.RFCOMM_RemoveServer (r.p_scb.serv_handle.getD i 0))).set_serv_handle i 0)
      refine ⟨?_, ?_, ?_⟩
      · rw [h1]; simp [Run.emit, Run.set_serv_handle]
      · rw [h2]; simp [Run.emit, Run.set_serv_handle]
      · rw [h3]; simp [Run.emit, Run.set_serv_handle]
    · exact ih (i + 1) (s >>> 1) r

/-- Entry `j` after the loop of `bta_ag_close_servers`: 0 when the loop reached it with its
bit set, untouched otherwise. -/
theorem bta_ag_close_servers_loop_getD :
    ∀ (k i s : Nat) (r : Run) (j : Nat),
      (bta_ag_close_servers_loop k i s r).p_scb.serv_handle.getD j 0 =
        if i ≤ j ∧ j < i + k ∧ s.testBit (j - i) = true then 0
        else r.p_scb.serv_handle.getD j 0 := by
  intro k
  induction k with
  | zero =>
    intro i s r j
    rw [if_neg (by omega)]
    simp [bta_ag_close_servers_loop]
  | succ k ih =>
    intro i s r j
    rw [bta_ag_close_servers_loop_succ]
    have hshift : i + 1 ≤ j → (s >>> 1).testBit (j - (i + 1)) = s.testBit (j - i) := by
      intro hj
      rw [testBit_shiftRight_one, show j - (i + 1) + 1 = j - i by omega]
    by_cases hb : s.testBit 0 = true
    · rw [if_pos hb, ih]
      have hset : ((r.emit (.RFCOMM_RemoveServer (r.p_scb.serv_handle.getD i 0))).set_serv_handle
          i 0).p_scb.serv_handle.getD j 0 = if j = i then 0 else r.p_scb.serv_handle.getD j 0 :=
        getD_set_zero r.p_scb.serv_handle i j
      rw [hset]
      by_cases hji : j = i
      · subst hji
        rw [if_neg (by omega), if_pos rfl, if_pos ⟨le_refl _, by omega, by simpa using hb⟩]
      · rw [if_neg hji]
        by_cases hlt : i + 1 ≤ j
        · rw [hshift hlt]
          by_cases hc : j < i + 1 + k ∧ s.testBit (j - i) = true
          · rw [if_pos ⟨hlt, hc⟩, if_pos ⟨by omega, by omega, hc.2⟩]
          · rw [if_neg (fun h => hc h.2), if_neg (fun h => hc ⟨by omega, h.2.2⟩)]
        · rw [if_neg (fun h => hlt h.1), if_neg (fun h => hlt (by omega))]
    · rw [if_neg hb, ih]
      by_cases hlt : i + 1 ≤ j
      · rw [hshift hlt]
        by_cases hc : j < i + 1 + k ∧ s.testBit (j - i) = true
        · rw [if_pos ⟨hlt, hc⟩, if_pos ⟨by omega, by omega, hc.2⟩]
        · rw [if_neg (fun h => hc h.2), if_neg (fun h => hc ⟨by omega, h.2.2⟩)]
      · rw [if_neg (fun h => hlt h.1)]
        by_cases hji : j = i
        · subst hji
          rw [if_neg (fun h => hb (by simpa using h.2.2))]
        · rw [if_neg (fun h => hlt (by omega))]

/-- The calls the loop of `bta_ag_close_servers` makes: one `RFCOMM_RemoveServer` for every
set bit it reaches, in increasing order, each with the entry as it was before the
operation. -/
theorem bta_ag_close_servers_loop_trace :
    ∀ (k i s : Nat) (r : Run),
      (bta_ag_close_servers_loop k i s r).trace =
        r.trace ++ ((List.range k).filter (fun j => s.testBit j)).map
          (fun j => Effect.RFCOMM_RemoveServer (r.p_scb.serv_handle.getD (i + j) 0)) := by
  intro k
  induction k with
  | zero => intro i s r; simp [bta_ag_close_servers_loop]
  | succ k ih =>
    intro i s r
    rw [bta_ag_close_servers_loop_succ, range_succ_filter_map]
    have hfilter : (List.range k).filter (fun j => (s >>> 1).testBit j) =
        (List.range k).filter (fun j => s.testBit (j + 1)) := by
      congr 1
      funext j
      rw [testBit_shiftRight_one]
    by_cases hb : s.testBit 0 = true
    · rw [if_pos hb, if_pos hb, ih, hfilter]
      have hmap : (fun j => Effect.RFCOMM_RemoveServer
          (((r.emit (.RFCOMM_RemoveServer (r.p_scb.serv_handle.getD i 0))).set_serv_handle
            i 0).p_scb.serv_handle.getD (i + 1 + j) 0)) =
          (fun j => Effect.RFCOMM_RemoveServer (r.p_scb.serv_handle.getD (i + (j + 1)) 0)) := by
        funext j
        have := getD_set_zero r.p_scb.serv_handle i (i + 1 + j)
        rw [if_neg (by omega)] at this
        rw [show i + (j + 1) = i + 1 + j by omega]
        exact congrArg _ this
      rw [hmap]
      simp [Run.emit, Run.set_serv_handle]
    · rw [if_neg hb, if_neg hb, ih, hfilter]
      have hmap : (fun j => Effect.RFCOMM_RemoveServer
          (r.p_scb.serv_handle.getD (i + 1 + j) 0)) =
          (fun j => Effect.RFCOMM_RemoveServer (r.p_scb.serv_handle.getD (i + (j + 1)) 0)) := by
        funext j
        rw [show i + (j + 1) = i + 1 + j by omega]
      rw [hmap]
      simp

/-- The loop of `bta_ag_close_servers` looks at the `k` lowest bits of the mask only. -/
theorem bta_ag_close_servers_loop_congr :
    ∀ (k i s t : Nat) (r : Run), (∀ j, j < k → s.testBit j = t.testBit j) →
      bta_ag_close_servers_loop k i s r = bta_ag_close_servers_loop k i t r := by
  intro k
  induction k with
  | zero => intro i s t r _; simp [bta_ag_close_servers_loop]
  | succ k ih =>
    intro i s t r h
    rw [bta_ag_close_servers_loop_succ, bta_ag_close_servers_loop_succ, h 0 (by omega)]
    have hrest : ∀ j, j < k → (s >>> 1).testBit j = (t >>> 1).testBit j := by
      intro j hj
      rw [testBit_shiftRight_one, testBit_shiftRight_one]
      exact h (j + 1) (by omega)
    rw [ih (i + 1) (s >>> 1) (t >>> 1) _ hrest, ih (i + 1) (s >>> 1) (t >>> 1) r hrest]

/-- Bit `j` of the shifted mask once the mask is restricted to the supported bits. -/
theorem supported_services_testBit (E : Env) (services j : Nat) :
    (supported_services E services >>> E.BTA_HSP_SERVICE_ID).testBit j =
      (decide (j < E.BTA_AG_NUM_IDX) && services.testBit (E.BTA_HSP_SERVICE_ID + j)) := by
  unfold supported_services
  rw [Nat.testBit_shiftRight, Nat.testBit_and, Nat.testBit_shiftLeft,
    Nat.testBit_two_pow_sub_one]
  have h1 : E.BTA_HSP_SERVICE_ID + j - E.BTA_HSP_SERVICE_ID = j := by omega
  have h2 : E.BTA_HSP_SERVICE_ID + j ≥ E.BTA_HSP_SERVICE_ID := by omega
  rw [h1]
  simp only [h2, decide_True, Bool.true_and]
  exact Bool.and_comm _ _

/-- Two lists of handles of the same length that read the same at every index are equal. -/
theorem list_eq_of_getD (l1 l2 : List Nat) (hlen : l1.length = l2.length)
    (h : ∀ j, l1.getD j 0 = l2.getD j 0) : l1 = l2 := by
  apply List.ext_getElem hlen
  intro n h1 h2
  have := h n
  rwa [List.getD_eq_getElem _ _ h1, List.getD_eq_getElem _ _ h2] at this

/-- Entry `i` after `bta_ag_close_servers`: 0 when `i` is a supported service whose bit is
set in the mask, untouched otherwise. -/
theorem bta_ag_close_servers_getD (E : Env) (r : Run) (services i : Nat) :
    (bta_ag_close_servers E r services).p_scb.serv_handle.getD i 0 =
      if i < E.BTA_AG_NUM_IDX ∧ services.testBit (E.BTA_HSP_SERVICE_ID + i) = true then 0
      else r.p_scb.serv_handle.getD i 0 := by
  unfold bta_ag_close_servers
  rw [bta_ag_close_servers_loop_getD, Nat.testBit_shiftRight, Nat.sub_zero, Nat.zero_add]
  by_cases hc : i < E.BTA_AG_NUM_IDX ∧ services.testBit (E.BTA_HSP_SERVICE_ID + i) = true
  · rw [if_pos hc, if_pos ⟨Nat.zero_le _, hc.1, hc.2⟩]
  · rw [if_neg hc, if_neg (fun h => hc ⟨h.2.1, h.2.2⟩)]

/-- The calls `bta_ag_close_servers` makes: one `RFCOMM_RemoveServer` per supported service
whose bit is set, with the entry as it was before the operation. -/
theorem bta_ag_close_servers_trace (E : Env) (r : Run) (services : Nat) :
    (bta_ag_close_servers E r services).trace =
      r.trace ++ ((List.range E.BTA_AG_NUM_IDX).filter
        (fun i => services.testBit (E.BTA_HSP_SERVICE_ID + i))).map
          (fun i => Effect.RFCOMM_RemoveServer (r.p_scb.serv_handle.getD i 0)) := by
  unfold bta_ag_close_servers
  rw [bta_ag_close_servers_loop_trace]
  have hf : (fun j => (services >>> E.BTA_HSP_SERVICE_ID).testBit j) =
      (fun i => services.testBit (E.BTA_HSP_SERVICE_ID + i)) := by
    funext j
    rw [Nat.testBit_shiftRight]
  have hg : (fun j => Effect.RFCOMM_RemoveServer (r.p_scb.serv_handle.getD (0 + j) 0)) =
      (fun i => Effect.RFCOMM_RemoveServer (r.p_scb.serv_handle.getD i 0)) := by
    funext j
    rw [Nat.zero_add]
  rw [hf, hg]

/-- C12: whatever the session and whatever the transport does with the requests (the code
discards what `RFCOMM_RemoveServer` returns), after `bta_ag_close_servers` with a mask that
has all `BTA_AG_NUM_IDX` supported bits set, from bit `BTA_HSP_SERVICE_ID` on,
`bta_ag_is_server_closed` returns true. -/
theorem close_servers_full_mask_closes (E : Env) (r : Run) (services : Nat)
    (hfull : ∀ i, i < E.BTA_AG_NUM_IDX → services.testBit (E.BTA_HSP_SERVICE_ID + i) = true)
    (hN : E.BTA_AG_NUM_IDX < 256) :
    bta_ag_is_server_closed E (bta_ag_close_servers E r services).p_scb = true := by
  unfold bta_ag_is_server_closed
  rw [bta_ag_is_server_closed_loop_iff]
  refine ⟨rfl, ?_⟩
  intro j hj
  rw [Nat.zero_add, bta_ag_close_servers_getD, if_pos ⟨hj, hfull j hj⟩]

/-- Witness of C12: two services listening on handles 4 and 5, mask `0x60`. -/
theorem close_servers_full_mask_closes_witness :
    (∀ i, i < env0.BTA_AG_NUM_IDX → Nat.testBit 0x60 (env0.BTA_HSP_SERVICE_ID + i) = true) ∧
    env0.BTA_AG_NUM_IDX < 256 ∧
    bta_ag_is_server_closed env0
      (bta_ag_close_servers env0 (Run.mk (scb0 3 0 [4, 5] 1) [] []) 0x60).p_scb = true :=
  ⟨by decide, by decide,
    close_servers_full_mask_closes env0 (Run.mk (scb0 3 0 [4, 5] 1) [] []) 0x60
      (by decide) (by decide)⟩

/-- C15 (as the code behaves): `bta_ag_close_servers` issues one `RFCOMM_RemoveServer` for
every supported service whose bit is set, with the current entry of `serv_handle` as handle,
so with handle 0 when the server is already closed; a second call with the same mask
therefore issues one `RFCOMM_RemoveServer(0)` per such service and leaves the session record
as the first call left it. -/
theorem close_servers_requests_and_repeat (E : Env) (r : Run) (services : Nat) :
    (bta_ag_close_servers E r services).trace =
      r.trace ++ ((List.range E.BTA_AG_NUM_IDX).filter
        (fun i => services.testBit (E.BTA_HSP_SERVICE_ID + i))).map
          (fun i => Effect.RFCOMM_RemoveServer (r.p_scb.serv_handle.getD i 0)) ∧
    (bta_ag_close_servers E (bta_ag_close_servers E r services) services).trace =
      (bta_ag_close_servers E r services).trace ++ ((List.range E.BTA_AG_NUM_IDX).filter
        (fun i => services.testBit (E.BTA_HSP_SERVICE_ID + i))).map
          (fun _ => Effect.RFCOMM_RemoveServer 0) ∧
    (bta_ag_close_servers E (bta_ag_close_servers E r services) services).p_scb =
      (bta_ag_close_servers E r services).p_scb := by
  refine ⟨bta_ag_close_servers_trace E r services, ?_, ?_⟩
  · rw [bta_ag_close_servers_trace E (bta_ag_close_servers E r services) services]
    congr 1
    apply List.map_congr_left
    intro i hi
    rw [List.mem_filter, List.mem_range] at hi
    rw [bta_ag_close_servers_getD, if_pos ⟨hi.1, hi.2⟩]
  · have hframe := (bta_ag_close_servers_loop_frame E.BTA_AG_NUM_IDX 0
      (services >>> E.BTA_HSP_SERVICE_ID) (bta_ag_close_servers E r services))
    have hlist : (bta_ag_close_servers E (bta_ag_close_servers E r services)
        services).p_scb.serv_handle = (bta_ag_close_servers E r services).p_scb.serv_handle := by
      apply list_eq_of_getD
      · exact hframe.2.2
      · intro j
        rw [bta_ag_close_servers_getD E (bta_ag_close_servers E r services)]
        split_ifs with hc
        · rw [bta_ag_close_servers_getD, if_pos hc]
        · rfl
    have h1 := hframe.1
    unfold bta_ag_close_servers at h1 hlist ⊢
    rw [h1, hlist]

/-- C15 counterexample: slot 3 with server handles `[4, 0]` and mask `0x60`.  Service 1 is
already closed, yet the first call issues `RFCOMM_RemoveServer(0)` for it, and a second call
with the same mask issues two more transport requests. -/
theorem close_servers_closed_counterexample :
    (scb0 3 0 [4, 0] 1).serv_handle.getD 1 0 = 0 ∧
    Nat.testBit 0x60 (env0.BTA_HSP_SERVICE_ID + 1) = true ∧
    (bta_ag_close_servers env0 (Run.mk (scb0 3 0 [4, 0] 1) [] []) 0x60).trace =
      [Effect.RFCOMM_RemoveServer 4, Effect.RFCOMM_RemoveServer 0] ∧
    (bta_ag_close_servers env0
      (bta_ag_close_servers env0 (Run.mk (scb0 3 0 [4, 0] 1) [] []) 0x60) 0x60).trace =
      [Effect.RFCOMM_RemoveServer 4, Effect.RFCOMM_RemoveServer 0,
        Effect.RFCOMM_RemoveServer 0, Effect.RFCOMM_RemoveServer 0] := by
  decide

/-- C17: after `bta_ag_close_servers` with mask `m`, entry `i` of `serv_handle` is 0 exactly
when `i < BTA_AG_NUM_IDX` with bit `BTA_HSP_SERVICE_ID + i` of `m` set, or the entry was 0
already; every other entry reads as before and the array keeps its length; no other field of
the session is written; and the operation does the same, calls included, for `m` as for `m`
restricted to the supported bits. -/
theorem close_servers_mask_and_frame (E : Env) (r : Run) (m : Nat) :
    (∀ i, (bta_ag_close_servers E r m).p_scb.serv_handle.getD i 0 = 0 ↔
      ((i < E.BTA_AG_NUM_IDX ∧ m.testBit (E.BTA_HSP_SERVICE_ID + i) = true) ∨
        r.p_scb.serv_handle.getD i 0 = 0)) ∧
    (∀ i, (bta_ag_close_servers E r m).p_scb.serv_handle.getD i 0 =
      if i < E.BTA_AG_NUM_IDX ∧ m.testBit (E.BTA_HSP_SERVICE_ID + i) = true then 0
      else r.p_scb.serv_handle.getD i 0) ∧
    (bta_ag_close_servers E r m).p_scb.serv_handle.length = r.p_scb.serv_handle.length ∧
    (bta_ag_close_servers E r m).p_scb =
      { r.p_scb with serv_handle := (bta_ag_close_servers E r m).p_scb.serv_handle } ∧
    bta_ag_close_servers E r m = bta_ag_close_servers E r (supported_services E m) := by
  refine ⟨?_, bta_ag_close_servers_getD E r m, ?_, ?_, ?_⟩
  · intro i
    rw [bta_ag_close_servers_getD]
    split_ifs with hc
    · simp [hc]
    · constructor
      · intro h; exact Or.inr h
      · rintro (h | h)
        · exact absurd h hc
        · exact h
  · exact (bta_ag_close_servers_loop_frame _ _ _ _).2.2
  · exact (bta_ag_close_servers_loop_frame _ _ _ _).1
  · unfold bta_ag_close_servers
    apply bta_ag_close_servers_loop_congr
    intro j hj
    rw [supported_services_testBit, Nat.testBit_shiftRight]
    simp [hj]

/-! ### Starting the servers: the loop, bit by bit -/

/-- With a slot index in 1..6 `bta_ag_setup_port` returns after its two port requests. -/
theorem bta_ag_setup_port_ok (E : Env) (r : Run) (handle : Nat)
    (hslot : 1 ≤ r.p_scb.slot_index ∧ r.p_scb.slot_index ≤ 6) :
    bta_ag_setup_port E r handle =
      .done ((r.emit (.PORT_SetEventMask handle (BTA_AG_PORT_EV_MASK E))).emit
        (.PORT_SetEventCallback handle
          (tbl_at bta_ag_port_cback_tbl ((bta_ag_scb_to_idx r.p_scb : Int) - 1)))) := by
  rcases bta_ag_setup_port_cases E r handle with h | h
  · exfalso
    unfold bta_ag_setup_port bta_ag_scb_to_idx at h
    simp only [bta_ag_port_cback_tbl, List.length_cons, List.length_nil] at h
    rw [if_neg (by omega), if_neg (by push_cast; omega)] at h
    exact Outcome.noConfusion h
  · exact h

/-- With no bit left in the mask the loop of `bta_ag_start_servers` returns at once. -/
theorem bta_ag_start_servers_loop_zero (E : Env) (k i : Nat) (r : Run) :
    bta_ag_start_servers_loop E k i 0 r = .done r := by
  cases k <;> simp [bta_ag_start_servers_loop]

/-- One iteration of the loop of `bta_ag_start_servers`, for a slot index in 1..6. -/
theorem bta_ag_start_servers_loop_succ (E : Env) (k i s : Nat) (r : Run)
    (hslot : 1 ≤ r.p_scb.slot_index ∧ r.p_scb.slot_index ≤ 6) :
    bta_ag_start_servers_loop E (k + 1) i s r =
      if s.testBit 0 = true then
        bta_ag_start_servers_loop E k (i + 1) (s >>> 1) (bta_ag_start_servers_body E i r)
      else bta_ag_start_servers_loop E k (i + 1) (s >>> 1) r := by
  rw [bta_ag_start_servers_loop]
  by_cases hs : s = 0
  · subst hs
    simp [bta_ag_start_servers_loop_zero]
  · rw [if_neg hs]
    by_cases hb : s &&& 1 ≠ 0
    · rw [if_pos hb, if_pos ((and_one_ne_zero_iff s).1 hb)]
      have h1 : ¬ ¬ ((bta_ag_scb_to_idx r.p_scb : Int) - 1 ≥ 0) := by
        unfold bta_ag_scb_to_idx; omega
      have h2 : ¬ ¬ ((bta_ag_scb_to_idx r.p_scb : Int) - 1 <
          (bta_ag_mgmt_cback_tbl.length : Int)) := by
        unfold bta_ag_scb_to_idx
        simp only [bta_ag_mgmt_cback_tbl, List.length_cons, List.length_nil]
        push_cast; omega
      dsimp only
      rw [if_neg h1, if_neg h2]
      unfold bta_ag_start_servers_body bta_ag_start_servers_req
      dsimp only
      split_ifs with hst
      · rw [bta_ag_setup_port_ok E ((r.emit _).set_serv_handle i _) _ hslot]
      · rfl
    · rw [if_neg hb, if_neg (fun h => hb ((and_one_ne_zero_iff s).2 h))]

/-- What one pass through the loop body for service `i` does to the session and the trace:
the slot index and the length of `serv_handle` stay, every entry but `i` stays, entry `i`
becomes the handle the transport hands back, and the trace grows by the create request
followed by the port setup, if any. -/
theorem bta_ag_start_servers_body_spec (E : Env) (i : Nat) (r : Run) :
    (bta_ag_start_servers_body E i r).p_scb.slot_index = r.p_scb.slot_index ∧
    (bta_ag_start_servers_body E i r).p_scb.serv_handle.length = r.p_scb.serv_handle.length ∧
    (∀ j, j ≠ i → (bta_ag_start_servers_body E i r).p_scb.serv_handle.getD j 0 =
      r.p_scb.serv_handle.getD j 0) ∧
    (i < r.p_scb.serv_handle.length →
      (bta_ag_start_servers_body E i r).p_scb.serv_handle.getD i 0 =
        (E.RFCOMM_CreateConnectionWithSecurity r.trace (bta_ag_start_servers_req E r.p_scb i)
          (r.p_scb.serv_handle.getD i 0)).2) ∧
    ∃ rest, (bta_ag_start_servers_body E i r).trace =
      r.trace ++ [Effect.RFCOMM_CreateConnectionWithSecurity
        (bta_ag_start_servers_req E r.p_scb i)] ++ rest := by
  have hget : ∀ (h j : Nat), j ≠ i →
      (r.p_scb.serv_handle.set i h).getD j 0 = r.p_scb.serv_handle.getD j 0 := by
    intro h j hj
    simp only [List.getD_eq_getElem?_getD, List.getElem?_set]
    rw [if_neg (fun e => hj e.symm)]
  have hget2 : ∀ (h : Nat), i < r.p_scb.serv_handle.length →
      (r.p_scb.serv_handle.set i h).getD i 0 = h := by
    intro h hi
    simp only [List.getD_eq_getElem?_getD, List.getElem?_set]
    simp [hi]
  unfold bta_ag_start_servers_body
  dsimp only
  split_ifs
  · refine ⟨rfl, ?_, ?_, ?_, ?_⟩
    · simp [Run.logs, Run.emit, Run.set_serv_handle]
    · intro j hj
      exact hget _ j hj
    · intro hi
      exact hget2 _ hi
    · exact ⟨_, List.append_assoc _ _ _⟩
  · refine ⟨rfl, ?_, ?_, ?_, ?_⟩
    · simp [Run.logs, Run.emit, Run.set_serv_handle]
    · intro j hj
      exact hget _ j hj
    · intro hi
      exact hget2 _ hi
    · exact ⟨[], (List.append_nil _).symm⟩

/-- With a slot index in 1..6 the loop of `bta_ag_start_servers` returns; it keeps the slot
index and the length of `serv_handle`, leaves the entries below `i` alone and only appends
to the trace. -/
theorem bta_ag_start_servers_loop_frame (E : Env) :
    ∀ (k i s : Nat) (r : Run), (1 ≤ r.p_scb.slot_index ∧ r.p_scb.slot_index ≤ 6) →
      ∃ final added, bta_ag_start_servers_loop E k i s r = .done final ∧
        final.trace = r.trace ++ added ∧
        final.p_scb.slot_index = r.p_scb.slot_index ∧
        final.p_scb.serv_handle.length = r.p_scb.serv_handle.length ∧
        ∀ j, j < i → final.p_scb.serv_handle.getD j 0 = r.p_scb.serv_handle.getD j 0 := by
  intro k
  induction k with
  | zero =>
    intro i s r _
    exact ⟨r, [], by simp [bta_ag_start_servers_loop], by simp, rfl, rfl, fun _ _ => rfl⟩
  | succ k ih =>
    intro i s r hslot
    rw [bta_ag_start_servers_loop_succ E k i s r hslot]
    split_ifs
    · obtain ⟨hb1, hb2, hb3, _, rest, hb5⟩ := bta_ag_start_servers_body_spec E i r
      obtain ⟨final, added, h1, h2, h3, h4, h5⟩ :=
        ih (i + 1) (s >>> 1) (bta_ag_start_servers_body E i r) (by rw [hb1]; exact hslot)
      refine ⟨final, [Effect.RFCOMM_CreateConnectionWithSecurity
        (bta_ag_start_servers_req E r.p_scb i)] ++ rest ++ added, h1, ?_,
        by rw [h3, hb1], by rw [h4, hb2], ?_⟩
      · rw [h2, hb5]
        simp only [List.append_assoc]
      · intro j hj
        rw [h5 j (by omega), hb3 j (by omega)]
    · obtain ⟨final, added, h1, h2, h3, h4, h5⟩ := ih (i + 1) (s >>> 1) r hslot
      exact ⟨final, added, h1, h2, h3, h4, fun j hj => h5 j (by omega)⟩

/-- The create request does not depend on anything of the session but its slot index. -/
theorem bta_ag_start_servers_req_slot (E : Env) (p q : tBTA_AG_SCB) (i : Nat)
    (h : p.slot_index = q.slot_index) :
    bta_ag_start_servers_req E p i = bta_ag_start_servers_req E q i := by
  simp [bta_ag_start_servers_req, bta_ag_scb_to_idx, h]

/-- With a slot index in 1..6, the loop of `bta_ag_start_servers` issues the create request
for every service whose bit it reaches set, whatever the entry holds, and the entry ends up
holding the handle the transport handed back for that request. -/
theorem bta_ag_start_servers_loop_request (E : Env) :
    ∀ (k i s : Nat) (r : Run), (1 ≤ r.p_scb.slot_index ∧ r.p_scb.slot_index ≤ 6) →
      ∀ j, j < k → s.testBit j = true → i + j < r.p_scb.serv_handle.length →
        ∃ final mid rest, bta_ag_start_servers_loop E k i s r = .done final ∧
          final.trace = r.trace ++ mid ++ [Effect.RFCOMM_CreateConnectionWithSecurity
            (bta_ag_start_servers_req E r.p_scb (i + j))] ++ rest ∧
          final.p_scb.serv_handle.getD (i + j) 0 =
            (E.RFCOMM_CreateConnectionWithSecurity (r.trace ++ mid)
              (bta_ag_start_servers_req E r.p_scb (i + j))
              (r.p_scb.serv_handle.getD (i + j) 0)).2 := by
  intro k
  induction k with
  | zero => intro i s r _ j hj; omega
  | succ k ih =>
    intro i s r hslot j hj hbit hlen
    rw [bta_ag_start_servers_loop_succ E k i s r hslot]
    obtain ⟨hb1, hb2, hb3, hb4, rest0, hb5⟩ := bta_ag_start_servers_body_spec E i r
    have hslot1 : 1 ≤ (bta_ag_start_servers_body E i r).p_scb.slot_index ∧
        (bta_ag_start_servers_body E i r).p_scb.slot_index ≤ 6 := by rw [hb1]; exact hslot
    cases j with
    | zero =>
      rw [if_pos hbit]
      obtain ⟨final, added, h1, h2, _, _, h5⟩ :=
        bta_ag_start_servers_loop_frame E k (i + 1) (s >>> 1)
          (bta_ag_start_servers_body E i r) hslot1
      refine ⟨final, [], rest0 ++ added, h1, ?_, ?_⟩
      · rw [h2, hb5]
        simp only [Nat.add_zero, List.append_nil, List.append_assoc]
      · simp only [Nat.add_zero, List.append_nil] at hlen ⊢
        rw [h5 i (by omega), hb4 hlen]
    | succ j =>
      have hbit1 : (s >>> 1).testBit j = true := by
        rw [testBit_shiftRight_one]; exact hbit
      have hidx : i + 1 + j = i + (j + 1) := by omega
      by_cases hb : s.testBit 0 = true
      · rw [if_pos hb]
        obtain ⟨final, mid, rest, h1, h2, h3⟩ :=
          ih (i + 1) (s >>> 1) (bta_ag_start_servers_body E i r) hslot1 j (by omega) hbit1
            (by rw [hb2]; omega)
        rw [hidx, bta_ag_start_servers_req_slot E _ r.p_scb _ hb1] at h2 h3
        refine ⟨final, [Effect.RFCOMM_CreateConnectionWithSecurity
          (bta_ag_start_servers_req E r.p_scb i)] ++ rest0 ++ mid, rest, h1, ?_, ?_⟩
        · rw [h2, hb5]
          simp only [List.append_assoc]
        · rw [h3, hb3 _ (by omega), hb5]
          simp only [List.append_assoc]
      · rw [if_neg hb]
        obtain ⟨final, mid, rest, h1, h2, h3⟩ :=
          ih (i + 1) (s >>> 1) r hslot j (by omega) hbit1 (by omega)
        rw [hidx] at h2 h3
        exact ⟨final, mid, rest, h1, h2, h3⟩

/-- C14 (as the code behaves): for a session whose slot index is in 1..6 and whose
`serv_handle` array has its `BTA_AG_NUM_IDX` entries, and for each supported service `i` whose
bit is set in the mask, `bta_ag_start_servers` returns having issued the create-listener
request for service `i`, whether or not `serv_handle[i]` was already set, and `serv_handle[i]`
holds the handle the transport handed back for that request. -/
theorem start_servers_requests_every_set_service (E : Env) (r : Run) (services i : Nat)
    (hslot : 1 ≤ r.p_scb.slot_index ∧ r.p_scb.slot_index ≤ 6)
    (hlen : r.p_scb.serv_handle.length = E.BTA_AG_NUM_IDX)
    (hi : i < E.BTA_AG_NUM_IDX)
    (hbit : services.testBit (E.BTA_HSP_SERVICE_ID + i) = true) :
    ∃ final mid rest, bta_ag_start_servers E r services = .done final ∧
      final.trace = r.trace ++ mid ++ [Effect.RFCOMM_CreateConnectionWithSecurity
        (bta_ag_start_servers_req E r.p_scb i)] ++ rest ∧
      final.p_scb.serv_handle.getD i 0 =
        (E.RFCOMM_CreateConnectionWithSecurity (r.trace ++ mid)
          (bta_ag_start_servers_req E r.p_scb i) (r.p_scb.serv_handle.getD i 0)).2 := by
  have h := bta_ag_start_servers_loop_request E E.BTA_AG_NUM_IDX 0
    (services >>> E.BTA_HSP_SERVICE_ID) r hslot i hi
    (by rw [Nat.testBit_shiftRight]; exact hbit) (by omega)
  rw [Nat.zero_add] at h
  exact h

/-- Witness of C14 as amended: slot 3, service 0 already listening on handle 4, mask
`0x20`. -/
theorem start_servers_requests_every_set_service_witness :
    (1 ≤ (Run.mk (scb0 3 0 [4, 0] 1) [] []).p_scb.slot_index ∧
      (Run.mk (scb0 3 0 [4, 0] 1) [] []).p_scb.slot_index ≤ 6) ∧
    (Run.mk (scb0 3 0 [4, 0] 1) [] []).p_scb.serv_handle.length = env0.BTA_AG_NUM_IDX ∧
    0 < env0.BTA_AG_NUM_IDX ∧ Nat.testBit 0x20 (env0.BTA_HSP_SERVICE_ID + 0) = true ∧
    ∃ final mid rest,
      bta_ag_start_servers env0 (Run.mk (scb0 3 0 [4, 0] 1) [] []) 0x20 = .done final ∧
      final.trace = (Run.mk (scb0 3 0 [4, 0] 1) [] []).trace ++ mid ++
        [Effect.RFCOMM_CreateConnectionWithSecurity
          (bta_ag_start_servers_req env0 (Run.mk (scb0 3 0 [4, 0] 1) [] []).p_scb 0)] ++ rest ∧
      final.p_scb.serv_handle.getD 0 0 =
        (env0.RFCOMM_CreateConnectionWithSecurity
          ((Run.mk (scb0 3 0 [4, 0] 1) [] []).trace ++ mid)
          (bta_ag_start_servers_req env0 (Run.mk (scb0 3 0 [4, 0] 1) [] []).p_scb 0)
          ((Run.mk (scb0 3 0 [4, 0] 1) [] []).p_scb.serv_handle.getD 0 0)).2 :=
  ⟨by decide, rfl, by decide, by decide,
    start_servers_requests_every_set_service env0 (Run.mk (scb0 3 0 [4, 0] 1) [] []) 0x20 0
      (by decide) rfl (by decide) (by decide)⟩

/-- C14 counterexample: slot 3, service 0 already listening on handle 4 (`serv_handle` is
`[4, 0]`), mask `0x20`.  The create-listener request for service 0 is issued all the same
and `serv_handle[0]` is overwritten with the new handle 1. -/
theorem start_servers_listening_counterexample :
    (scb0 3 0 [4, 0] 1).serv_handle.getD 0 0 ≠ 0 ∧
    Nat.testBit 0x20 (env0.BTA_HSP_SERVICE_ID + 0) = true ∧
    bta_ag_start_servers env0 (Run.mk (scb0 3 0 [4, 0] 1) [] []) 0x20 =
      .done ⟨scb0 3 0 [1, 0] 1,
        [.RFCOMM_CreateConnectionWithSecurity
            { uuid := 0x1112, scn := 1, is_server := true, mtu := 256, bd_addr := 0,
              p_mgmt_callback := some .bta_ag_mgmt_cback_3, sec_mask := 6 },
         .PORT_SetEventMask 1 1,
         .PORT_SetEventCallback 1 (some .bta_ag_port_cback_3)],
        [.verbose]⟩ := by
  decide

end BtaAgRfc
